import Mathlib

/-!
Verification of the response-parsing, merge-reconciliation and flattening
logic of the systematic-review extraction scripts.

The Python sources are shallowly embedded:
* strings are Lean Strings, operated on through their character lists, with
  Python semantics (strip, split, startswith, containment) reproduced by the
  py-prefixed helpers below;
* Optional[str] fields become Option String;
* dataclasses become structures with none defaults;
* every path on which the Python code raises or catches an exception is made
  explicit through outcome types (ApiOutcome, DecodeOutcome, AnalyzeOutcome),
  so that the embedded functions are total.

Namespaces: Hybrid embeds extract_data_hybrid_docling_pymupdf.py, Gemini
embeds extract_data_gemini.py, Screen embeds systematic_review_ai.py.
-/

/-- Python whitespace characters stripped by str.strip() (ASCII range). -/
def isPyWS (c : Char) : Bool :=
  c = ' ' || c = '\t' || c = '\n' || c = '\r' || c = '\x0b' || c = '\x0c'

/-- List-level model of Python str.strip(): drop whitespace at both ends. -/
def pyStripL (l : List Char) : List Char :=
  ((l.dropWhile isPyWS).reverse.dropWhile isPyWS).reverse

/-- Python str.strip() on Strings. -/
def pyStrip (s : String) : String :=
  String.mk (pyStripL s.data)

/-- Python str.lstrip(chars): drop leading characters that belong to the set. -/
def pyLstripChars (set : List Char) (l : List Char) : List Char :=
  l.dropWhile (fun c => set.contains c)

/-- Python str.rstrip(chars): drop trailing characters that belong to the set. -/
def pyRstripChars (set : List Char) (l : List Char) : List Char :=
  (l.reverse.dropWhile (fun c => set.contains c)).reverse

/-- Python str.split(sep) for a one-character separator sep. -/
def splitOnChar (sep : Char) : List Char → List (List Char)
  | [] => [[]]
  | c :: rest =>
    if c = sep then [] :: splitOnChar sep rest
    else
      match splitOnChar sep rest with
      | [] => [[c]]
      | h :: t => (c :: h) :: t

/-- Split a list at the first occurrence of the pattern pat: the Python
idiom s.split(pat, 1) for a pattern known to occur, returning the parts
before and after the first occurrence, or none when pat does not occur. -/
def splitFirstL (pat : List Char) : List Char → Option (List Char × List Char)
  | [] => if pat.isEmpty then some ([], []) else none
  | c :: rest =>
    if pat.isPrefixOf (c :: rest) then some ([], (c :: rest).drop pat.length)
    else
      match splitFirstL pat rest with
      | some (a, b) => some (c :: a, b)
      | none => none

/-- The pattern of a colon followed by a space, used by both structured-text
fallback parsers to separate a field label from its value. -/
def colonSpace : List Char := [':', ' ']

/-- Python truthiness of an optional error string: None and the empty string
are falsy, every other string is truthy. -/
def errSet : Option String → Bool
  | none => false
  | some s => !(s == "")

/-- Python str() applied to an optional string: None prints as "None".
Used where the source interpolates a possibly-None value into an f-string
or takes len(str(...)). -/
def pyStr : Option String → String
  | none => "None"
  | some s => s

/-- One line of the structured-text fallback loop, shared verbatim by both
script variants: strip the line, skip blanks, bold section headers and
separator lines, and for lines of the form "- Label: value" strip both parts
and hand them to the label dispatcher. -/
def processLineG {σ : Type} (apply : σ → String → String → σ) (st : σ)
    (lraw : List Char) : σ :=
  let line := pyStripL lraw
  if line = [] then st
  else if "**".data.isPrefixOf line then st
  else if "---".data.isPrefixOf line then st
  else if "- ".data.isPrefixOf line && (splitFirstL colonSpace line).isSome then
    match splitFirstL colonSpace (line.drop 2) with
    | some (f, v) => apply st (String.mk (pyStripL f)) (String.mk (pyStripL v))
    | none => st
  else st

/-- The structured-text fallback loop: text.strip().split(backslash-n) folded
over the per-line processor. -/
def parseLinesG {σ : Type} (apply : σ → String → String → σ) (init : σ)
    (text : String) : σ :=
  (splitOnChar '\n' (pyStripL text.data)).foldl (processLineG apply) init

/-- Dispatch a stripped field label through an alias table of setters; an
unrecognized label leaves the state unchanged, mirroring the fall-through of
the elif chain in parse_structured_response. -/
def applyTable {σ : Type} (tbl : List (String × (σ → String → σ))) (st : σ)
    (name : String) (value : String) : σ :=
  match tbl.lookup name with
  | some f => f st value
  | none => st

namespace Hybrid

/-- Dataclass StudyIdentification of extract_data_hybrid_docling_pymupdf.py. -/
structure StudyIdentification where
  title : Option String := none
  lead_author : Option String := none
  year : Option String := none
  journal : Option String := none
  doi : Option String := none
  country : Option String := none
deriving DecidableEq

/-- Dataclass StudyCharacteristics of the hybrid script. -/
structure StudyCharacteristics where
  study_aim : Option String := none
  followup_duration : Option String := none
  multisite_study : Option String := none
deriving DecidableEq

/-- Dataclass Participants of the hybrid script. -/
structure Participants where
  clinical_population : Option String := none
  n_patient_group : Option String := none
  n_control_group : Option String := none
  n_overall : Option String := none
  mean_age_patient : Option String := none
  sd_age_patient : Option String := none
  mean_age_control : Option String := none
  sd_age_control : Option String := none
  age_range_patient : Option String := none
  age_range_control : Option String := none
  gender_distribution_patient : Option String := none
  gender_distribution_control : Option String := none
deriving DecidableEq

/-- Dataclass MRIAcquisition of the hybrid script. -/
structure MRIAcquisition where
  scanner_strength : Option String := none
  scanner_manufacturer : Option String := none
  b_values : Option String := none
  gradient_directions : Option String := none
  reverse_phase_encoding : Option String := none
  voxel_size : Option String := none
  tr : Option String := none
  te : Option String := none
  acquisition_time : Option String := none
deriving DecidableEq

/-- Dataclass AnalysisMethods of the hybrid script. -/
structure AnalysisMethods where
  preprocessing_steps : Option String := none
  analysis_software : Option String := none
  analysis_approach : Option String := none
  free_water_method : Option String := none
  regions_analyzed : Option String := none
  free_water_metrics_reported : Option String := none
  if_atlas_name_of_atlas : Option String := none
  roi_definition_method : Option String := none
deriving DecidableEq

/-- Dataclass FreeWaterResults of the hybrid script. -/
structure FreeWaterResults where
  clinical_group_fw_values : Option String := none
  control_group_fw_values : Option String := none
  group_comparison_p_value : Option String := none
deriving DecidableEq

/-- Dataclass Correlations of the hybrid script. -/
structure Correlations where
  correlations_reported : Option String := none
  correlation_coefficients : Option String := none
deriving DecidableEq

/-- Dataclass KeyFindings of the hybrid script. -/
structure KeyFindings where
  longitudinal_data_available : Option String := none
  longitudinal_data_results : Option String := none
  primary_finding : Option String := none
  main_interpretation : Option String := none
  key_limitations : Option String := none
  other_measures : Option String := none
deriving DecidableEq

/-- Dataclass ExtractedData of the hybrid script: one optional sub-record
per section plus filename, error and extraction_method. -/
structure ExtractedData where
  filename : Option String := none
  identification : Option StudyIdentification := none
  characteristics : Option StudyCharacteristics := none
  participants : Option Participants := none
  mri_acquisition : Option MRIAcquisition := none
  analysis_methods : Option AnalysisMethods := none
  free_water_results : Option FreeWaterResults := none
  correlations : Option Correlations := none
  key_findings : Option KeyFindings := none
  error : Option String := none
  extraction_method : Option String := none
deriving DecidableEq

/-- The eight freshly constructed section instances that both parsing
functions of the hybrid script populate before assembling an ExtractedData. -/
structure Sections where
  identification : StudyIdentification := {}
  characteristics : StudyCharacteristics := {}
  participants : Participants := {}
  mri_acquisition : MRIAcquisition := {}
  analysis_methods : AnalysisMethods := {}
  free_water_results : FreeWaterResults := {}
  correlations : Correlations := {}
  key_findings : KeyFindings := {}
deriving DecidableEq

/-- Assemble the ExtractedData returned by both parsing functions of the
hybrid script: every section is present, filename, error and
extraction_method are left unset. -/
def assemble (st : Sections) : ExtractedData :=
  { identification := some st.identification
    characteristics := some st.characteristics
    participants := some st.participants
    mri_acquisition := some st.mri_acquisition
    analysis_methods := some st.analysis_methods
    free_water_results := some st.free_water_results
    correlations := some st.correlations
    key_findings := some st.key_findings }

end Hybrid

namespace Hybrid

/-- The label alias table of parse_structured_response in the hybrid
script: each entry is one elif branch mapping a stripped field label to the
assignment it performs. Entry order follows the source; all labels are
distinct, so ordered lookup reproduces the elif chain. -/
def fieldTable : List (String × (Sections → String → Sections)) :=
  [ ("Title", fun st v => { st with identification := { st.identification with title := some v } })
  , ("Lead author", fun st v => { st with identification := { st.identification with lead_author := some v } })
  , ("Year", fun st v => { st with identification := { st.identification with year := some v } })
  , ("Year of publication", fun st v => { st with identification := { st.identification with year := some v } })
  , ("Journal", fun st v => { st with identification := { st.identification with journal := some v } })
  , ("Journal name", fun st v => { st with identification := { st.identification with journal := some v } })
  , ("DOI", fun st v => { st with identification := { st.identification with doi := some v } })
  , ("Country", fun st v => { st with identification := { st.identification with country := some v } })
  , ("Study aim", fun st v => { st with characteristics := { st.characteristics with study_aim := some v } })
  , ("Aim", fun st v => { st with characteristics := { st.characteristics with study_aim := some v } })
  , ("Follow-up duration", fun st v => { st with characteristics := { st.characteristics with followup_duration := some v } })
  , ("Multi-site study", fun st v => { st with characteristics := { st.characteristics with multisite_study := some v } })
  , ("Clinical population", fun st v => { st with participants := { st.participants with clinical_population := some v } })
  , ("N patient group", fun st v => { st with participants := { st.participants with n_patient_group := some v } })
  , ("N control group", fun st v => { st with participants := { st.participants with n_control_group := some v } })
  , ("N overall", fun st v => { st with participants := { st.participants with n_overall := some v } })
  , ("Mean age patient", fun st v => { st with participants := { st.participants with mean_age_patient := some v } })
  , ("SD age patient", fun st v => { st with participants := { st.participants with sd_age_patient := some v } })
  , ("Mean age control", fun st v => { st with participants := { st.participants with mean_age_control := some v } })
  , ("SD age control", fun st v => { st with participants := { st.participants with sd_age_control := some v } })
  , ("Age range patient", fun st v => { st with participants := { st.participants with age_range_patient := some v } })
  , ("Age range control", fun st v => { st with participants := { st.participants with age_range_control := some v } })
  , ("Gender distribution patient", fun st v => { st with participants := { st.participants with gender_distribution_patient := some v } })
  , ("Gender distribution control", fun st v => { st with participants := { st.participants with gender_distribution_control := some v } })
  , ("Scanner strength", fun st v => { st with mri_acquisition := { st.mri_acquisition with scanner_strength := some v } })
  , ("Scanner manufacturer", fun st v => { st with mri_acquisition := { st.mri_acquisition with scanner_manufacturer := some v } })
  , ("b-values", fun st v => { st with mri_acquisition := { st.mri_acquisition with b_values := some v } })
  , ("Gradient directions", fun st v => { st with mri_acquisition := { st.mri_acquisition with gradient_directions := some v } })
  , ("Reverse phase-encoding", fun st v => { st with mri_acquisition := { st.mri_acquisition with reverse_phase_encoding := some v } })
  , ("Voxel size", fun st v => { st with mri_acquisition := { st.mri_acquisition with voxel_size := some v } })
  , ("TR", fun st v => { st with mri_acquisition := { st.mri_acquisition with tr := some v } })
  , ("TE", fun st v => { st with mri_acquisition := { st.mri_acquisition with te := some v } })
  , ("Acquisition time", fun st v => { st with mri_acquisition := { st.mri_acquisition with acquisition_time := some v } })
  , ("Preprocessing steps", fun st v => { st with analysis_methods := { st.analysis_methods with preprocessing_steps := some v } })
  , ("Analysis software", fun st v => { st with analysis_methods := { st.analysis_methods with analysis_software := some v } })
  , ("Analysis approach", fun st v => { st with analysis_methods := { st.analysis_methods with analysis_approach := some v } })
  , ("Free-water method", fun st v => { st with analysis_methods := { st.analysis_methods with free_water_method := some v } })
  , ("Regions analyzed", fun st v => { st with analysis_methods := { st.analysis_methods with regions_analyzed := some v } })
  , ("Free-water metrics reported", fun st v => { st with analysis_methods := { st.analysis_methods with free_water_metrics_reported := some v } })
  , ("If atlas name of atlas", fun st v => { st with analysis_methods := { st.analysis_methods with if_atlas_name_of_atlas := some v } })
  , ("ROI definition method", fun st v => { st with analysis_methods := { st.analysis_methods with roi_definition_method := some v } })
  , ("Clinical group FW values", fun st v => { st with free_water_results := { st.free_water_results with clinical_group_fw_values := some v } })
  , ("Control group FW values", fun st v => { st with free_water_results := { st.free_water_results with control_group_fw_values := some v } })
  , ("Group comparison p-value", fun st v => { st with free_water_results := { st.free_water_results with group_comparison_p_value := some v } })
  , ("Correlations reported", fun st v => { st with correlations := { st.correlations with correlations_reported := some v } })
  , ("Correlation coefficients", fun st v => { st with correlations := { st.correlations with correlation_coefficients := some v } })
  , ("Longitudinal data available", fun st v => { st with key_findings := { st.key_findings with longitudinal_data_available := some v } })
  , ("Longitudinal data results", fun st v => { st with key_findings := { st.key_findings with longitudinal_data_results := some v } })
  , ("Primary finding", fun st v => { st with key_findings := { st.key_findings with primary_finding := some v } })
  , ("Main interpretation", fun st v => { st with key_findings := { st.key_findings with main_interpretation := some v } })
  , ("Key limitations", fun st v => { st with key_findings := { st.key_findings with key_limitations := some v } })
  , ("Other measures", fun st v => { st with key_findings := { st.key_findings with other_measures := some v } })
  ]

/-- parse_structured_response of the hybrid script: fold the shared
line-oriented fallback loop over the input and wrap the populated sections. -/
def parse_structured_response (text : String) : ExtractedData :=
  assemble (parseLinesG (applyTable fieldTable) {} text)

/-- The key dispatch of parse_json_response in the hybrid script: each JSON
key found in one of the membership lists is written to the section attribute
of the same name; unknown keys fall through unchanged. -/
def jsonKeyTable : List (String × (Sections → String → Sections)) :=
  [ ("title", fun st v => { st with identification := { st.identification with title := some v } })
  , ("lead_author", fun st v => { st with identification := { st.identification with lead_author := some v } })
  , ("year", fun st v => { st with identification := { st.identification with year := some v } })
  , ("journal", fun st v => { st with identification := { st.identification with journal := some v } })
  , ("doi", fun st v => { st with identification := { st.identification with doi := some v } })
  , ("country", fun st v => { st with identification := { st.identification with country := some v } })
  , ("study_aim", fun st v => { st with characteristics := { st.characteristics with study_aim := some v } })
  , ("followup_duration", fun st v => { st with characteristics := { st.characteristics with followup_duration := some v } })
  , ("multisite_study", fun st v => { st with characteristics := { st.characteristics with multisite_study := some v } })
  , ("clinical_population", fun st v => { st with participants := { st.participants with clinical_population := some v } })
  , ("n_patient_group", fun st v => { st with participants := { st.participants with n_patient_group := some v } })
  , ("n_control_group", fun st v => { st with participants := { st.participants with n_control_group := some v } })
  , ("n_overall", fun st v => { st with participants := { st.participants with n_overall := some v } })
  , ("mean_age_patient", fun st v => { st with participants := { st.participants with mean_age_patient := some v } })
  , ("sd_age_patient", fun st v => { st with participants := { st.participants with sd_age_patient := some v } })
  , ("mean_age_control", fun st v => { st with participants := { st.participants with mean_age_control := some v } })
  , ("sd_age_control", fun st v => { st with participants := { st.participants with sd_age_control := some v } })
  , ("age_range_patient", fun st v => { st with participants := { st.participants with age_range_patient := some v } })
  , ("age_range_control", fun st v => { st with participants := { st.participants with age_range_control := some v } })
  , ("gender_distribution_patient", fun st v => { st with participants := { st.participants with gender_distribution_patient := some v } })
  , ("gender_distribution_control", fun st v => { st with participants := { st.participants with gender_distribution_control := some v } })
  , ("scanner_strength", fun st v => { st with mri_acquisition := { st.mri_acquisition with scanner_strength := some v } })
  , ("scanner_manufacturer", fun st v => { st with mri_acquisition := { st.mri_acquisition with scanner_manufacturer := some v } })
  , ("b_values", fun st v => { st with mri_acquisition := { st.mri_acquisition with b_values := some v } })
  , ("gradient_directions", fun st v => { st with mri_acquisition := { st.mri_acquisition with gradient_directions := some v } })
  , ("reverse_phase_encoding", fun st v => { st with mri_acquisition := { st.mri_acquisition with reverse_phase_encoding := some v } })
  , ("voxel_size", fun st v => { st with mri_acquisition := { st.mri_acquisition with voxel_size := some v } })
  , ("tr", fun st v => { st with mri_acquisition := { st.mri_acquisition with tr := some v } })
  , ("te", fun st v => { st with mri_acquisition := { st.mri_acquisition with te := some v } })
  , ("acquisition_time", fun st v => { st with mri_acquisition := { st.mri_acquisition with acquisition_time := some v } })
  , ("preprocessing_steps", fun st v => { st with analysis_methods := { st.analysis_methods with preprocessing_steps := some v } })
  , ("analysis_software", fun st v => { st with analysis_methods := { st.analysis_methods with analysis_software := some v } })
  , ("analysis_approach", fun st v => { st with analysis_methods := { st.analysis_methods with analysis_approach := some v } })
  , ("free_water_method", fun st v => { st with analysis_methods := { st.analysis_methods with free_water_method := some v } })
  , ("regions_analyzed", fun st v => { st with analysis_methods := { st.analysis_methods with regions_analyzed := some v } })
  , ("free_water_metrics_reported", fun st v => { st with analysis_methods := { st.analysis_methods with free_water_metrics_reported := some v } })
  , ("if_atlas_name_of_atlas", fun st v => { st with analysis_methods := { st.analysis_methods with if_atlas_name_of_atlas := some v } })
  , ("roi_definition_method", fun st v => { st with analysis_methods := { st.analysis_methods with roi_definition_method := some v } })
  , ("clinical_group_fw_values", fun st v => { st with free_water_results := { st.free_water_results with clinical_group_fw_values := some v } })
  , ("control_group_fw_values", fun st v => { st with free_water_results := { st.free_water_results with control_group_fw_values := some v } })
  , ("group_comparison_p_value", fun st v => { st with free_water_results := { st.free_water_results with group_comparison_p_value := some v } })
  , ("correlations_reported", fun st v => { st with correlations := { st.correlations with correlations_reported := some v } })
  , ("correlation_coefficients", fun st v => { st with correlations := { st.correlations with correlation_coefficients := some v } })
  , ("longitudinal_data_available", fun st v => { st with key_findings := { st.key_findings with longitudinal_data_available := some v } })
  , ("longitudinal_data_results", fun st v => { st with key_findings := { st.key_findings with longitudinal_data_results := some v } })
  , ("primary_finding", fun st v => { st with key_findings := { st.key_findings with primary_finding := some v } })
  , ("main_interpretation", fun st v => { st with key_findings := { st.key_findings with main_interpretation := some v } })
  , ("key_limitations", fun st v => { st with key_findings := { st.key_findings with key_limitations := some v } })
  , ("other_measures", fun st v => { st with key_findings := { st.key_findings with other_measures := some v } })
  ]

/-- parse_json_response of the hybrid script, over a decoded JSON object of
string values: iterate the key-value pairs, writing each recognized key to
its section field (later occurrences overwrite earlier ones). -/
def parse_json_response (pairs : List (String × String)) : ExtractedData :=
  assemble (pairs.foldl (fun st kv => applyTable jsonKeyTable st kv.1 kv.2) {})

end Hybrid

/-- Outcome of the model call inside the try block: either a raw response
text was obtained (the empty string when the response object carries no
text), or some exception was raised by the client. -/
inductive ApiOutcome where
  | success (raw : String)
  | exception (msg : String)
deriving DecidableEq

/-- Outcome of the structured-decode step applied to the cleaned response
text: json.loads returns an object of string values, raises
json.JSONDecodeError, or the decode and mapping step raises some other
exception (for example a non-object JSON document breaking the items
iteration), which the enclosing handler turns into an error record. -/
inductive DecodeOutcome where
  | ok (pairs : List (String × String))
  | jsonDecodeError
  | otherException (msg : String)

/-- The response cleaning applied before json.loads in both extraction
scripts: strip(), then lstrip with the character set of the literal
backtick-backtick-backtick-json (a backtick, the letters j, s, o, n), then
rstrip with the backtick character. -/
def cleanResponse (s : String) : String :=
  String.mk (pyRstripChars [Char.ofNat 96]
    (pyLstripChars [Char.ofNat 96, 'j', 's', 'o', 'n'] (pyStripL s.data)))

namespace Hybrid

/-- extract_data_with_ai of the hybrid script, with the model call and the
decode step abstracted as outcome oracles. A supported model name leads to
the call; an exception there, an empty response, a decode failure and an
unsupported model each produce exactly the record the source builds. -/
def extract_data_with_ai (ai_model : String) (api : ApiOutcome)
    (decode : String → DecodeOutcome) : ExtractedData :=
  if ai_model = "gemini" ∨ ai_model = "claude" then
    match api with
    | .exception msg =>
      { error := some ("An unexpected AI API error occurred: " ++ msg) }
    | .success raw =>
      if raw = "" then
        { error := some "The AI API returned an empty response, possibly due to a safety filter." }
      else
        match decode (cleanResponse raw) with
        | .ok pairs => parse_json_response pairs
        | .jsonDecodeError => parse_structured_response raw
        | .otherException msg =>
          { error := some ("An unexpected AI API error occurred: " ++ msg) }
  else { error := some ("Unsupported AI model: " ++ ai_model) }

/-- is_meaningful_value of the hybrid script: false for None, the empty
string, the sentinels "Not reported" and "NR", and whitespace-only strings. -/
def is_meaningful_value : Option String → Bool
  | none => false
  | some s => !(s == "" || s == "Not reported" || s == "NR" || pyStrip s == "")

/-- The docling branch of the field-priority merge: keep the docling value
when meaningful, otherwise fall back to the pymupdf value. -/
def prio_docling (dv pv : Option String) : Option String :=
  if is_meaningful_value dv then dv else pv

/-- The pymupdf branch of the field-priority merge: keep the pymupdf value
when meaningful, otherwise fall back to the docling value. -/
def prio_pymupdf (dv pv : Option String) : Option String :=
  if is_meaningful_value pv then pv else dv

/-- The prefer_non_empty default branch of the field-priority merge: when
both values are meaningful keep the one whose len(str(...)) is largest with
ties to docling, otherwise keep the single meaningful value or None. -/
def prio_prefer_non_empty (dv pv : Option String) : Option String :=
  if is_meaningful_value dv && is_meaningful_value pv then
    if (pyStr dv).length ≥ (pyStr pv).length then dv else pv
  else if is_meaningful_value dv then dv
  else if is_meaningful_value pv then pv
  else none

/-- getattr(pymupdf_attr, field_name) if pymupdf_attr else None. -/
def getOpt {α β : Type} (p : Option α) (f : α → Option β) : Option β :=
  match p with
  | some pa => f pa
  | none => none

/-- The per-section body of the merge loop for StudyIdentification: present
docling section drives the field loop (FIELD_PRIORITIES gives every field
here the prefer_non_empty default); an absent docling section with a present
pymupdf section yields a fresh all-None instance because the field loop is
guarded by the docling attribute; two absent sections are skipped. -/
def mergeIdentification (d p : Option StudyIdentification) : Option StudyIdentification :=
  match d with
  | some da => some
    { title := prio_prefer_non_empty da.title (getOpt p (·.title))
      lead_author := prio_prefer_non_empty da.lead_author (getOpt p (·.lead_author))
      year := prio_prefer_non_empty da.year (getOpt p (·.year))
      journal := prio_prefer_non_empty da.journal (getOpt p (·.journal))
      doi := prio_prefer_non_empty da.doi (getOpt p (·.doi))
      country := prio_prefer_non_empty da.country (getOpt p (·.country)) }
  | none => match p with
    | some _ => some {}
    | none => none

/-- Merge loop body for StudyCharacteristics (all fields default). -/
def mergeCharacteristics (d p : Option StudyCharacteristics) : Option StudyCharacteristics :=
  match d with
  | some da => some
    { study_aim := prio_prefer_non_empty da.study_aim (getOpt p (·.study_aim))
      followup_duration := prio_prefer_non_empty da.followup_duration (getOpt p (·.followup_duration))
      multisite_study := prio_prefer_non_empty da.multisite_study (getOpt p (·.multisite_study)) }
  | none => match p with
    | some _ => some {}
    | none => none

/-- Merge loop body for Participants (all fields default). -/
def mergeParticipants (d p : Option Participants) : Option Participants :=
  match d with
  | some da => some
    { clinical_population := prio_prefer_non_empty da.clinical_population (getOpt p (·.clinical_population))
      n_patient_group := prio_prefer_non_empty da.n_patient_group (getOpt p (·.n_patient_group))
      n_control_group := prio_prefer_non_empty da.n_control_group (getOpt p (·.n_control_group))
      n_overall := prio_prefer_non_empty da.n_overall (getOpt p (·.n_overall))
      mean_age_patient := prio_prefer_non_empty da.mean_age_patient (getOpt p (·.mean_age_patient))
      sd_age_patient := prio_prefer_non_empty da.sd_age_patient (getOpt p (·.sd_age_patient))
      mean_age_control := prio_prefer_non_empty da.mean_age_control (getOpt p (·.mean_age_control))
      sd_age_control := prio_prefer_non_empty da.sd_age_control (getOpt p (·.sd_age_control))
      age_range_patient := prio_prefer_non_empty da.age_range_patient (getOpt p (·.age_range_patient))
      age_range_control := prio_prefer_non_empty da.age_range_control (getOpt p (·.age_range_control))
      gender_distribution_patient := prio_prefer_non_empty da.gender_distribution_patient (getOpt p (·.gender_distribution_patient))
      gender_distribution_control := prio_prefer_non_empty da.gender_distribution_control (getOpt p (·.gender_distribution_control)) }
  | none => match p with
    | some _ => some {}
    | none => none

/-- Merge loop body for MRIAcquisition: FIELD_PRIORITIES sends
scanner_strength, scanner_manufacturer, b_values, gradient_directions,
voxel_size, tr and te to the docling branch; reverse_phase_encoding and
acquisition_time keep the prefer_non_empty default. -/
def mergeMRIAcquisition (d p : Option MRIAcquisition) : Option MRIAcquisition :=
  match d with
  | some da => some
    { scanner_strength := prio_docling da.scanner_strength (getOpt p (·.scanner_strength))
      scanner_manufacturer := prio_docling da.scanner_manufacturer (getOpt p (·.scanner_manufacturer))
      b_values := prio_docling da.b_values (getOpt p (·.b_values))
      gradient_directions := prio_docling da.gradient_directions (getOpt p (·.gradient_directions))
      reverse_phase_encoding := prio_prefer_non_empty da.reverse_phase_encoding (getOpt p (·.reverse_phase_encoding))
      voxel_size := prio_docling da.voxel_size (getOpt p (·.voxel_size))
      tr := prio_docling da.tr (getOpt p (·.tr))
      te := prio_docling da.te (getOpt p (·.te))
      acquisition_time := prio_prefer_non_empty da.acquisition_time (getOpt p (·.acquisition_time)) }
  | none => match p with
    | some _ => some {}
    | none => none

/-- Merge loop body for AnalysisMethods (all fields default). -/
def mergeAnalysisMethods (d p : Option AnalysisMethods) : Option AnalysisMethods :=
  match d with
  | some da => some
    { preprocessing_steps := prio_prefer_non_empty da.preprocessing_steps (getOpt p (·.preprocessing_steps))
      analysis_software := prio_prefer_non_empty da.analysis_software (getOpt p (·.analysis_software))
      analysis_approach := prio_prefer_non_empty da.analysis_approach (getOpt p (·.analysis_approach))
      free_water_method := prio_prefer_non_empty da.free_water_method (getOpt p (·.free_water_method))
      regions_analyzed := prio_prefer_non_empty da.regions_analyzed (getOpt p (·.regions_analyzed))
      free_water_metrics_reported := prio_prefer_non_empty da.free_water_metrics_reported (getOpt p (·.free_water_metrics_reported))
      if_atlas_name_of_atlas := prio_prefer_non_empty da.if_atlas_name_of_atlas (getOpt p (·.if_atlas_name_of_atlas))
      roi_definition_method := prio_prefer_non_empty da.roi_definition_method (getOpt p (·.roi_definition_method)) }
  | none => match p with
    | some _ => some {}
    | none => none

/-- Merge loop body for FreeWaterResults: all three fields are sent to the
pymupdf branch by FIELD_PRIORITIES. -/
def mergeFreeWaterResults (d p : Option FreeWaterResults) : Option FreeWaterResults :=
  match d with
  | some da => some
    { clinical_group_fw_values := prio_pymupdf da.clinical_group_fw_values (getOpt p (·.clinical_group_fw_values))
      control_group_fw_values := prio_pymupdf da.control_group_fw_values (getOpt p (·.control_group_fw_values))
      group_comparison_p_value := prio_pymupdf da.group_comparison_p_value (getOpt p (·.group_comparison_p_value)) }
  | none => match p with
    | some _ => some {}
    | none => none

/-- Merge loop body for Correlations: correlation_coefficients is a pymupdf
field, correlations_reported keeps the default. -/
def mergeCorrelations (d p : Option Correlations) : Option Correlations :=
  match d with
  | some da => some
    { correlations_reported := prio_prefer_non_empty da.correlations_reported (getOpt p (·.correlations_reported))
      correlation_coefficients := prio_pymupdf da.correlation_coefficients (getOpt p (·.correlation_coefficients)) }
  | none => match p with
    | some _ => some {}
    | none => none

/-- Merge loop body for KeyFindings: key_limitations and main_interpretation
are pymupdf fields, the rest keep the default. -/
def mergeKeyFindings (d p : Option KeyFindings) : Option KeyFindings :=
  match d with
  | some da => some
    { longitudinal_data_available := prio_prefer_non_empty da.longitudinal_data_available (getOpt p (·.longitudinal_data_available))
      longitudinal_data_results := prio_prefer_non_empty da.longitudinal_data_results (getOpt p (·.longitudinal_data_results))
      primary_finding := prio_prefer_non_empty da.primary_finding (getOpt p (·.primary_finding))
      main_interpretation := prio_pymupdf da.main_interpretation (getOpt p (·.main_interpretation))
      key_limitations := prio_pymupdf da.key_limitations (getOpt p (·.key_limitations))
      other_measures := prio_prefer_non_empty da.other_measures (getOpt p (·.other_measures)) }
  | none => match p with
    | some _ => some {}
    | none => none

/-- merge_extraction_results of the hybrid script. The fresh merged record
receives the filename argument and the "hybrid" tag; a double failure keeps
them and records a combined error; a single failure rebinds merged to the
error-free input and only retags it; otherwise every section is merged by
the guarded field loop above. -/
def merge_extraction_results (docling_result pymupdf_result : ExtractedData)
    (filename : String) : ExtractedData :=
  if errSet docling_result.error && errSet pymupdf_result.error then
    { filename := some filename
      extraction_method := some "hybrid"
      error := some ("Both methods failed: Docling: " ++ pyStr docling_result.error
        ++ ", PyMuPDF: " ++ pyStr pymupdf_result.error) }
  else if errSet docling_result.error then
    { pymupdf_result with extraction_method := some "pymupdf_only" }
  else if errSet pymupdf_result.error then
    { docling_result with extraction_method := some "docling_only" }
  else
    { filename := some filename
      extraction_method := some "hybrid"
      error := none
      identification := mergeIdentification docling_result.identification pymupdf_result.identification
      characteristics := mergeCharacteristics docling_result.characteristics pymupdf_result.characteristics
      participants := mergeParticipants docling_result.participants pymupdf_result.participants
      mri_acquisition := mergeMRIAcquisition docling_result.mri_acquisition pymupdf_result.mri_acquisition
      analysis_methods := mergeAnalysisMethods docling_result.analysis_methods pymupdf_result.analysis_methods
      free_water_results := mergeFreeWaterResults docling_result.free_water_results pymupdf_result.free_water_results
      correlations := mergeCorrelations docling_result.correlations pymupdf_result.correlations
      key_findings := mergeKeyFindings docling_result.key_findings pymupdf_result.key_findings }

/-- to_dict of the hybrid ExtractedData: filename and extraction_method
first; a truthy error short-circuits to the three-column row; otherwise each
present section appends its columns in schema order. -/
def to_dict (r : ExtractedData) : List (String × Option String) :=
  let base := [("filename", r.filename), ("extraction_method", r.extraction_method)]
  if errSet r.error then base ++ [("error", r.error)]
  else base
    ++ (match r.identification with
        | some i =>
          [ ("title", i.title), ("lead_author", i.lead_author), ("year", i.year)
          , ("journal", i.journal), ("doi", i.doi), ("country", i.country) ]
        | none => [])
    ++ (match r.characteristics with
        | some c =>
          [ ("study_aim", c.study_aim), ("followup_duration", c.followup_duration)
          , ("multisite_study", c.multisite_study) ]
        | none => [])
    ++ (match r.participants with
        | some p =>
          [ ("clinical_population", p.clinical_population), ("n_patient_group", p.n_patient_group)
          , ("n_control_group", p.n_control_group), ("n_overall", p.n_overall)
          , ("mean_age_patient", p.mean_age_patient), ("sd_age_patient", p.sd_age_patient)
          , ("mean_age_control", p.mean_age_control), ("sd_age_control", p.sd_age_control)
          , ("age_range_patient", p.age_range_patient), ("age_range_control", p.age_range_control)
          , ("gender_distribution_patient", p.gender_distribution_patient)
          , ("gender_distribution_control", p.gender_distribution_control) ]
        | none => [])
    ++ (match r.mri_acquisition with
        | some m =>
          [ ("scanner_strength", m.scanner_strength), ("scanner_manufacturer", m.scanner_manufacturer)
          , ("b_values", m.b_values), ("gradient_directions", m.gradient_directions)
          , ("reverse_phase_encoding", m.reverse_phase_encoding), ("voxel_size", m.voxel_size)
          , ("tr", m.tr), ("te", m.te), ("acquisition_time", m.acquisition_time) ]
        | none => [])
    ++ (match r.analysis_methods with
        | some a =>
          [ ("preprocessing_steps", a.preprocessing_steps), ("analysis_software", a.analysis_software)
          , ("analysis_approach", a.analysis_approach), ("free_water_method", a.free_water_method)
          , ("regions_analyzed", a.regions_analyzed)
          , ("free_water_metrics_reported", a.free_water_metrics_reported)
          , ("if_atlas_name_of_atlas", a.if_atlas_name_of_atlas)
          , ("ROI_definition_method", a.roi_definition_method) ]
        | none => [])
    ++ (match r.free_water_results with
        | some f =>
          [ ("clinical_group_fw_values", f.clinical_group_fw_values)
          , ("control_group_fw_values", f.control_group_fw_values)
          , ("group_comparison_p_value", f.group_comparison_p_value) ]
        | none => [])
    ++ (match r.correlations with
        | some c =>
          [ ("correlations_reported", c.correlations_reported)
          , ("correlation_coefficients", c.correlation_coefficients) ]
        | none => [])
    ++ (match r.key_findings with
        | some k =>
          [ ("longitudinal_data_available", k.longitudinal_data_available)
          , ("longitudinal_data_results", k.longitudinal_data_results)
          , ("primary_finding", k.primary_finding), ("main_interpretation", k.main_interpretation)
          , ("key_limitations", k.key_limitations), ("other_measures", k.other_measures) ]
        | none => [])

end Hybrid

namespace Gemini

/-- Dataclass StudyIdentification of extract_data_gemini.py. -/
structure StudyIdentification where
  title : Option String := none
  lead_author : Option String := none
  year : Option String := none
  journal : Option String := none
  doi : Option String := none
  country : Option String := none
deriving DecidableEq

/-- Dataclass StudyCharacteristics of the gemini script. -/
structure StudyCharacteristics where
  study_aim : Option String := none
  study_design : Option String := none
  followup_duration : Option String := none
  multisite_study : Option String := none
deriving DecidableEq

/-- Dataclass Participants of the gemini script. -/
structure Participants where
  clinical_population : Option String := none
  diagnosis : Option String := none
  disease_duration : Option String := none
  severity_scale : Option String := none
  clinical_scores : Option String := none
  control_group : Option String := none
  total_participants : Option String := none
deriving DecidableEq

/-- Dataclass MRIAcquisition of the gemini script. -/
structure MRIAcquisition where
  field_strength : Option String := none
  manufacturer : Option String := none
  b_values : Option String := none
  num_b_shells : Option String := none
  gradient_directions : Option String := none
  reverse_phase_encoding : Option String := none
  voxel_size : Option String := none
  tr : Option String := none
  te : Option String := none
  acquisition_time : Option String := none
deriving DecidableEq

/-- Dataclass AnalysisMethods of the gemini script. -/
structure AnalysisMethods where
  preprocessing : Option String := none
  analysis_software : Option String := none
  free_water_method : Option String := none
  free_water_metrics : Option String := none
  analysis_approach : Option String := none
  tissue_analyzed : Option String := none
  regions_analyzed : Option String := none
deriving DecidableEq

/-- Dataclass StatisticalAnalysis of the gemini script. -/
structure StatisticalAnalysis where
  multiple_comparison_correction : Option String := none
deriving DecidableEq

/-- Dataclass FreeWaterResults of the gemini script. -/
structure FreeWaterResults where
  clinical_group_fw_values : Option String := none
  control_group_fw_values : Option String := none
  group_comparison_p_value : Option String := none
deriving DecidableEq

/-- Dataclass Associations of the gemini script. -/
structure Associations where
  clinical_measure_associations : Option String := none
  measure_name : Option String := none
  association_type : Option String := none
  association_statistics : Option String := none
deriving DecidableEq

/-- Dataclass Biomarkers of the gemini script. -/
structure Biomarkers where
  biomarker_measured : Option String := none
  biomarker_details : Option String := none
  biomarker_associations : Option String := none
deriving DecidableEq

/-- Dataclass KeyFindings of the gemini script. -/
structure KeyFindings where
  primary_finding : Option String := none
  main_interpretation : Option String := none
  key_limitations : Option String := none
  other_measures : Option String := none
deriving DecidableEq

/-- Dataclass ExtractedData of the gemini script. -/
structure ExtractedData where
  filename : Option String := none
  identification : Option StudyIdentification := none
  characteristics : Option StudyCharacteristics := none
  participants : Option Participants := none
  mri_acquisition : Option MRIAcquisition := none
  analysis_methods : Option AnalysisMethods := none
  statistical_analysis : Option StatisticalAnalysis := none
  free_water_results : Option FreeWaterResults := none
  associations : Option Associations := none
  biomarkers : Option Biomarkers := none
  key_findings : Option KeyFindings := none
  error : Option String := none
deriving DecidableEq

/-- The ten freshly constructed section instances that both parsing
functions of the gemini script populate. -/
structure Sections where
  identification : StudyIdentification := {}
  characteristics : StudyCharacteristics := {}
  participants : Participants := {}
  mri_acquisition : MRIAcquisition := {}
  analysis_methods : AnalysisMethods := {}
  statistical_analysis : StatisticalAnalysis := {}
  free_water_results : FreeWaterResults := {}
  associations : Associations := {}
  biomarkers : Biomarkers := {}
  key_findings : KeyFindings := {}
deriving DecidableEq

/-- Assemble the ExtractedData returned by both parsing functions of the
gemini script. -/
def assemble (st : Sections) : ExtractedData :=
  { identification := some st.identification
    characteristics := some st.characteristics
    participants := some st.participants
    mri_acquisition := some st.mri_acquisition
    analysis_methods := some st.analysis_methods
    statistical_analysis := some st.statistical_analysis
    free_water_results := some st.free_water_results
    associations := some st.associations
    biomarkers := some st.biomarkers
    key_findings := some st.key_findings }

/-- The label alias table of parse_structured_response in the gemini script,
one entry per elif branch, in source order. -/
def fieldTable : List (String × (Sections → String → Sections)) :=
  [ ("Title", fun st v => { st with identification := { st.identification with title := some v } })
  , ("Lead author", fun st v => { st with identification := { st.identification with lead_author := some v } })
  , ("Year", fun st v => { st with identification := { st.identification with year := some v } })
  , ("Year of publication", fun st v => { st with identification := { st.identification with year := some v } })
  , ("Journal", fun st v => { st with identification := { st.identification with journal := some v } })
  , ("Journal name", fun st v => { st with identification := { st.identification with journal := some v } })
  , ("DOI", fun st v => { st with identification := { st.identification with doi := some v } })
  , ("Country", fun st v => { st with identification := { st.identification with country := some v } })
  , ("Aim", fun st v => { st with characteristics := { st.characteristics with study_aim := some v } })
  , ("Aim of study", fun st v => { st with characteristics := { st.characteristics with study_aim := some v } })
  , ("Study design", fun st v => { st with characteristics := { st.characteristics with study_design := some v } })
  , ("Follow-up duration", fun st v => { st with characteristics := { st.characteristics with followup_duration := some v } })
  , ("Multi-site study", fun st v => { st with characteristics := { st.characteristics with multisite_study := some v } })
  , ("Clinical population", fun st v => { st with participants := { st.participants with clinical_population := some v } })
  , ("Diagnosis", fun st v => { st with participants := { st.participants with diagnosis := some v } })
  , ("Clinical population diagnosis", fun st v => { st with participants := { st.participants with diagnosis := some v } })
  , ("Disease duration", fun st v => { st with participants := { st.participants with disease_duration := some v } })
  , ("Severity scale used", fun st v => { st with participants := { st.participants with severity_scale := some v } })
  , ("Disease severity scale/assessment used", fun st v => { st with participants := { st.participants with severity_scale := some v } })
  , ("Clinical scores", fun st v => { st with participants := { st.participants with clinical_scores := some v } })
  , ("Disease severity/Clinical scores", fun st v => { st with participants := { st.participants with clinical_scores := some v } })
  , ("Control group", fun st v => { st with participants := { st.participants with control_group := some v } })
  , ("Total N", fun st v => { st with participants := { st.participants with total_participants := some v } })
  , ("Total number of participants", fun st v => { st with participants := { st.participants with total_participants := some v } })
  , ("Scanner field strength", fun st v => { st with mri_acquisition := { st.mri_acquisition with field_strength := some v } })
  , ("Manufacturer", fun st v => { st with mri_acquisition := { st.mri_acquisition with manufacturer := some v } })
  , ("b-values", fun st v => { st with mri_acquisition := { st.mri_acquisition with b_values := some v } })
  , ("Number of b-shells", fun st v => { st with mri_acquisition := { st.mri_acquisition with num_b_shells := some v } })
  , ("Gradient directions", fun st v => { st with mri_acquisition := { st.mri_acquisition with gradient_directions := some v } })
  , ("Reverse phase-encoding", fun st v => { st with mri_acquisition := { st.mri_acquisition with reverse_phase_encoding := some v } })
  , ("Voxel size", fun st v => { st with mri_acquisition := { st.mri_acquisition with voxel_size := some v } })
  , ("TR", fun st v => { st with mri_acquisition := { st.mri_acquisition with tr := some v } })
  , ("TE", fun st v => { st with mri_acquisition := { st.mri_acquisition with te := some v } })
  , ("Acquisition time", fun st v => { st with mri_acquisition := { st.mri_acquisition with acquisition_time := some v } })
  , ("Preprocessing", fun st v => { st with analysis_methods := { st.analysis_methods with preprocessing := some v } })
  , ("Analysis software", fun st v => { st with analysis_methods := { st.analysis_methods with analysis_software := some v } })
  , ("Free-water method", fun st v => { st with analysis_methods := { st.analysis_methods with free_water_method := some v } })
  , ("Free-water metrics", fun st v => { st with analysis_methods := { st.analysis_methods with free_water_metrics := some v } })
  , ("Analysis approach", fun st v => { st with analysis_methods := { st.analysis_methods with analysis_approach := some v } })
  , ("Tissue analyzed", fun st v => { st with analysis_methods := { st.analysis_methods with tissue_analyzed := some v } })
  , ("Regions analyzed", fun st v => { st with analysis_methods := { st.analysis_methods with regions_analyzed := some v } })
  , ("Multiple comparison correction", fun st v => { st with statistical_analysis := { st.statistical_analysis with multiple_comparison_correction := some v } })
  , ("Clinical group FW values", fun st v => { st with free_water_results := { st.free_water_results with clinical_group_fw_values := some v } })
  , ("Control group FW values", fun st v => { st with free_water_results := { st.free_water_results with control_group_fw_values := some v } })
  , ("Group comparison p-value", fun st v => { st with free_water_results := { st.free_water_results with group_comparison_p_value := some v } })
  , ("Clinical measure associations", fun st v => { st with associations := { st.associations with clinical_measure_associations := some v } })
  , ("Measure name", fun st v => { st with associations := { st.associations with measure_name := some v } })
  , ("Association type", fun st v => { st with associations := { st.associations with association_type := some v } })
  , ("Association statistics", fun st v => { st with associations := { st.associations with association_statistics := some v } })
  , ("Biomarker measured", fun st v => { st with biomarkers := { st.biomarkers with biomarker_measured := some v } })
  , ("Biomarker details", fun st v => { st with biomarkers := { st.biomarkers with biomarker_details := some v } })
  , ("Biomarker associations", fun st v => { st with biomarkers := { st.biomarkers with biomarker_associations := some v } })
  , ("Primary finding", fun st v => { st with key_findings := { st.key_findings with primary_finding := some v } })
  , ("Main interpretation", fun st v => { st with key_findings := { st.key_findings with main_interpretation := some v } })
  , ("Key limitations", fun st v => { st with key_findings := { st.key_findings with key_limitations := some v } })
  , ("Other measures", fun st v => { st with key_findings := { st.key_findings with other_measures := some v } })
  ]

/-- parse_structured_response of the gemini script. -/
def parse_structured_response (text : String) : ExtractedData :=
  assemble (parseLinesG (applyTable fieldTable) {} text)

/-- The key dispatch of parse_json_response in the gemini script. -/
def jsonKeyTable : List (String × (Sections → String → Sections)) :=
  [ ("title", fun st v => { st with identification := { st.identification with title := some v } })
  , ("lead_author", fun st v => { st with identification := { st.identification with lead_author := some v } })
  , ("year", fun st v => { st with identification := { st.identification with year := some v } })
  , ("journal", fun st v => { st with identification := { st.identification with journal := some v } })
  , ("doi", fun st v => { st with identification := { st.identification with doi := some v } })
  , ("country", fun st v => { st with identification := { st.identification with country := some v } })
  , ("study_aim", fun st v => { st with characteristics := { st.characteristics with study_aim := some v } })
  , ("study_design", fun st v => { st with characteristics := { st.characteristics with study_design := some v } })
  , ("followup_duration", fun st v => { st with characteristics := { st.characteristics with followup_duration := some v } })
  , ("multisite_study", fun st v => { st with characteristics := { st.characteristics with multisite_study := some v } })
  , ("clinical_population", fun st v => { st with participants := { st.participants with clinical_population := some v } })
  , ("diagnosis", fun st v => { st with participants := { st.participants with diagnosis := some v } })
  , ("disease_duration", fun st v => { st with participants := { st.participants with disease_duration := some v } })
  , ("severity_scale", fun st v => { st with participants := { st.participants with severity_scale := some v } })
  , ("clinical_scores", fun st v => { st with participants := { st.participants with clinical_scores := some v } })
  , ("control_group", fun st v => { st with participants := { st.participants with control_group := some v } })
  , ("total_participants", fun st v => { st with participants := { st.participants with total_participants := some v } })
  , ("field_strength", fun st v => { st with mri_acquisition := { st.mri_acquisition with field_strength := some v } })
  , ("manufacturer", fun st v => { st with mri_acquisition := { st.mri_acquisition with manufacturer := some v } })
  , ("b_values", fun st v => { st with mri_acquisition := { st.mri_acquisition with b_values := some v } })
  , ("num_b_shells", fun st v => { st with mri_acquisition := { st.mri_acquisition with num_b_shells := some v } })
  , ("gradient_directions", fun st v => { st with mri_acquisition := { st.mri_acquisition with gradient_directions := some v } })
  , ("reverse_phase_encoding", fun st v => { st with mri_acquisition := { st.mri_acquisition with reverse_phase_encoding := some v } })
  , ("voxel_size", fun st v => { st with mri_acquisition := { st.mri_acquisition with voxel_size := some v } })
  , ("tr", fun st v => { st with mri_acquisition := { st.mri_acquisition with tr := some v } })
  , ("te", fun st v => { st with mri_acquisition := { st.mri_acquisition with te := some v } })
  , ("acquisition_time", fun st v => { st with mri_acquisition := { st.mri_acquisition with acquisition_time := some v } })
  , ("preprocessing", fun st v => { st with analysis_methods := { st.analysis_methods with preprocessing := some v } })
  , ("analysis_software", fun st v => { st with analysis_methods := { st.analysis_methods with analysis_software := some v } })
  , ("free_water_method", fun st v => { st with analysis_methods := { st.analysis_methods with free_water_method := some v } })
  , ("free_water_metrics", fun st v => { st with analysis_methods := { st.analysis_methods with free_water_metrics := some v } })
  , ("analysis_approach", fun st v => { st with analysis_methods := { st.analysis_methods with analysis_approach := some v } })
  , ("tissue_analyzed", fun st v => { st with analysis_methods := { st.analysis_methods with tissue_analyzed := some v } })
  , ("regions_analyzed", fun st v => { st with analysis_methods := { st.analysis_methods with regions_analyzed := some v } })
  , ("multiple_comparison_correction", fun st v => { st with statistical_analysis := { st.statistical_analysis with multiple_comparison_correction := some v } })
  , ("clinical_group_fw_values", fun st v => { st with free_water_results := { st.free_water_results with clinical_group_fw_values := some v } })
  , ("control_group_fw_values", fun st v => { st with free_water_results := { st.free_water_results with control_group_fw_values := some v } })
  , ("group_comparison_p_value", fun st v => { st with free_water_results := { st.free_water_results with group_comparison_p_value := some v } })
  , ("clinical_measure_associations", fun st v => { st with associations := { st.associations with clinical_measure_associations := some v } })
  , ("measure_name", fun st v => { st with associations := { st.associations with measure_name := some v } })
  , ("association_type", fun st v => { st with associations := { st.associations with association_type := some v } })
  , ("association_statistics", fun st v => { st with associations := { st.associations with association_statistics := some v } })
  , ("biomarker_measured", fun st v => { st with biomarkers := { st.biomarkers with biomarker_measured := some v } })
  , ("biomarker_details", fun st v => { st with biomarkers := { st.biomarkers with biomarker_details := some v } })
  , ("biomarker_associations", fun st v => { st with biomarkers := { st.biomarkers with biomarker_associations := some v } })
  , ("primary_finding", fun st v => { st with key_findings := { st.key_findings with primary_finding := some v } })
  , ("main_interpretation", fun st v => { st with key_findings := { st.key_findings with main_interpretation := some v } })
  , ("key_limitations", fun st v => { st with key_findings := { st.key_findings with key_limitations := some v } })
  , ("other_measures", fun st v => { st with key_findings := { st.key_findings with other_measures := some v } })
  ]

/-- parse_json_response of the gemini script over a decoded JSON object of
string values. -/
def parse_json_response (pairs : List (String × String)) : ExtractedData :=
  assemble (pairs.foldl (fun st kv => applyTable jsonKeyTable st kv.1 kv.2) {})

/-- extract_data_with_gemini of the gemini script, with the model call and
decode step abstracted as outcome oracles, exactly as for the hybrid
variant but without a model dispatch and with its own message texts. -/
def extract_data_with_gemini (api : ApiOutcome)
    (decode : String → DecodeOutcome) : ExtractedData :=
  match api with
  | .exception msg =>
    { error := some ("An unexpected API error occurred: " ++ msg) }
  | .success raw =>
    if raw = "" then
      { error := some "The API returned an empty response, possibly due to a safety filter." }
    else
      match decode (cleanResponse raw) with
      | .ok pairs => parse_json_response pairs
      | .jsonDecodeError => parse_structured_response raw
      | .otherException msg =>
        { error := some ("An unexpected API error occurred: " ++ msg) }

/-- to_dict of the gemini ExtractedData: filename first; a truthy error
short-circuits to the two-column row; otherwise each present section
appends its columns. -/
def to_dict (r : ExtractedData) : List (String × Option String) :=
  let base := [("filename", r.filename)]
  if errSet r.error then base ++ [("error", r.error)]
  else base
    ++ (match r.identification with
        | some i =>
          [ ("title", i.title), ("lead_author", i.lead_author), ("year", i.year)
          , ("journal", i.journal), ("doi", i.doi), ("country", i.country) ]
        | none => [])
    ++ (match r.characteristics with
        | some c =>
          [ ("study_aim", c.study_aim), ("study_design", c.study_design)
          , ("followup_duration", c.followup_duration), ("multisite_study", c.multisite_study) ]
        | none => [])
    ++ (match r.participants with
        | some p =>
          [ ("clinical_population", p.clinical_population), ("diagnosis", p.diagnosis)
          , ("disease_duration", p.disease_duration), ("severity_scale", p.severity_scale)
          , ("clinical_scores", p.clinical_scores), ("control_group", p.control_group)
          , ("total_participants", p.total_participants) ]
        | none => [])
    ++ (match r.mri_acquisition with
        | some m =>
          [ ("field_strength", m.field_strength), ("manufacturer", m.manufacturer)
          , ("b_values", m.b_values), ("num_b_shells", m.num_b_shells)
          , ("gradient_directions", m.gradient_directions)
          , ("reverse_phase_encoding", m.reverse_phase_encoding), ("voxel_size", m.voxel_size)
          , ("tr", m.tr), ("te", m.te), ("acquisition_time", m.acquisition_time) ]
        | none => [])
    ++ (match r.analysis_methods with
        | some a =>
          [ ("preprocessing", a.preprocessing), ("analysis_software", a.analysis_software)
          , ("free_water_method", a.free_water_method), ("free_water_metrics", a.free_water_metrics)
          , ("analysis_approach", a.analysis_approach), ("tissue_analyzed", a.tissue_analyzed)
          , ("regions_analyzed", a.regions_analyzed) ]
        | none => [])
    ++ (match r.statistical_analysis with
        | some s => [("multiple_comparison_correction", s.multiple_comparison_correction)]
        | none => [])
    ++ (match r.free_water_results with
        | some f =>
          [ ("clinical_group_fw_values", f.clinical_group_fw_values)
          , ("control_group_fw_values", f.control_group_fw_values)
          , ("group_comparison_p_value", f.group_comparison_p_value) ]
        | none => [])
    ++ (match r.associations with
        | some a =>
          [ ("clinical_measure_associations", a.clinical_measure_associations)
          , ("measure_name", a.measure_name), ("association_type", a.association_type)
          , ("association_statistics", a.association_statistics) ]
        | none => [])
    ++ (match r.biomarkers with
        | some b =>
          [ ("biomarker_measured", b.biomarker_measured), ("biomarker_details", b.biomarker_details)
          , ("biomarker_associations", b.biomarker_associations) ]
        | none => [])
    ++ (match r.key_findings with
        | some k =>
          [ ("primary_finding", k.primary_finding), ("main_interpretation", k.main_interpretation)
          , ("key_limitations", k.key_limitations), ("other_measures", k.other_measures) ]
        | none => [])

end Gemini

namespace Screen

/-- A Python value found inside a decoded JSON object: a string, or any
non-string value carried with the text its f-string formatting produces. -/
inductive PyVal where
  | str (s : String)
  | other (shown : String)
deriving DecidableEq

/-- What json.loads returned in the screening analyzers: a JSON object
(modelled as an association list with unique keys, looked up like a Python
dict), or a non-object value, carried with the results of the two Python
membership tests the code performs on it and the message of the TypeError
that subscripting it with a string key raises. -/
inductive Loaded where
  | dict (pairs : List (String × PyVal))
  | nonDict (hasDec : Bool) (hasJust : Bool) (subscriptErr : String)
deriving DecidableEq

/-- Outcome of the guarded region of one screening analyzer: an exception
before or during the model call or response access (transport failure,
safety block, missing attribute), a json.JSONDecodeError from json.loads,
or a successfully loaded value. -/
inductive AnalyzeOutcome where
  | apiError (msg : String)
  | jsonError (msg : String)
  | loaded (v : Loaded)
deriving DecidableEq

/-- The f-string rendering of a PyVal. -/
def pyValStr : PyVal → String
  | .str s => s
  | .other shown => shown

/-- The shared body of analyze_text_with_claude, analyze_text_with_openai
and analyze_text_with_gemini, which differ only in how the raw reply is
obtained (absorbed into the outcome) and in the model name inside their
diagnostic messages: validate required keys, validate the decision value,
return the parsed dictionary on success and a diagnostic dictionary on
every failure path. -/
def analyzeCore (modelName : String) (o : AnalyzeOutcome) : List (String × PyVal) :=
  match o with
  | .apiError msg =>
    [ ("decision", .str "API Error")
    , ("justification", .str (modelName ++ " API error: " ++ msg)) ]
  | .jsonError msg =>
    [ ("decision", .str "JSON Error")
    , ("justification", .str ("Invalid JSON response from " ++ modelName ++ ": " ++ msg)) ]
  | .loaded (.nonDict hasDec hasJust subscriptErr) =>
    if !hasDec || !hasJust then
      [ ("decision", .str "Parse Error")
      , ("justification", .str "Missing required keys in model response") ]
    else
      [ ("decision", .str "API Error")
      , ("justification", .str (modelName ++ " API error: " ++ subscriptErr)) ]
  | .loaded (.dict ps) =>
    if (ps.lookup "decision").isNone || (ps.lookup "justification").isNone then
      [ ("decision", .str "Parse Error")
      , ("justification", .str "Missing required keys in model response") ]
    else
      let d := (ps.lookup "decision").getD (.other "")
      if d = .str "Include" ∨ d = .str "Exclude" then ps
      else
        [ ("decision", .str "Parse Error")
        , ("justification", .str ("Invalid decision value: " ++ pyValStr d)) ]

/-- analyze_text_with_claude of systematic_review_ai.py. -/
def analyze_text_with_claude : AnalyzeOutcome → List (String × PyVal) :=
  analyzeCore "Claude"

/-- analyze_text_with_openai of systematic_review_ai.py. -/
def analyze_text_with_openai : AnalyzeOutcome → List (String × PyVal) :=
  analyzeCore "OpenAI"

/-- analyze_text_with_gemini of systematic_review_ai.py. -/
def analyze_text_with_gemini : AnalyzeOutcome → List (String × PyVal) :=
  analyzeCore "Gemini"

/-- The shape of outcome for which the claim allows an Include or Exclude
decision: the reply loaded as a JSON object holding both required keys with
a valid decision value. -/
def validShape (o : AnalyzeOutcome) : Prop :=
  ∃ ps, o = .loaded (.dict ps)
    ∧ (ps.lookup "decision" = some (.str "Include")
        ∨ ps.lookup "decision" = some (.str "Exclude"))
    ∧ (ps.lookup "justification").isSome = true

/-- The contract one screening analyzer must satisfy for claim C10: both
keys always present, Include or Exclude only from a valid reply, and a
diagnostic decision label on every other outcome. -/
def analyzerContract (f : AnalyzeOutcome → List (String × PyVal)) : Prop :=
  ∀ o : AnalyzeOutcome,
    ((f o).lookup "decision").isSome = true
    ∧ ((f o).lookup "justification").isSome = true
    ∧ (((f o).lookup "decision" = some (.str "Include")
          ∨ (f o).lookup "decision" = some (.str "Exclude")) → validShape o)
    ∧ (¬ validShape o →
        ((f o).lookup "decision" = some (.str "Parse Error")
          ∨ (f o).lookup "decision" = some (.str "JSON Error")
          ∨ (f o).lookup "decision" = some (.str "API Error")))

end Screen

/-- Spec-side rendering of the fixed-source priority rule, written from the
words of the specification: take the preferred-source value A unless it is
not meaningful, in which case fall back to the other-source value B. -/
def fixedSourceSpec (a b : Option String) : Option String :=
  if Hybrid.is_meaningful_value a then a else b

/-- Spec-side rendering of the prefer-non-empty default rule, written from
the words of the specification: if both values are meaningful keep the one
with the greater character count with ties going to pipeline A; if exactly
one is meaningful keep it; if neither is meaningful the field is unset. -/
def preferNonEmptySpec (a b : Option String) : Option String :=
  if Hybrid.is_meaningful_value a ∧ Hybrid.is_meaningful_value b then
    if (pyStr a).length > (pyStr b).length then a
    else if (pyStr b).length > (pyStr a).length then b
    else a
  else if Hybrid.is_meaningful_value a then a
  else if Hybrid.is_meaningful_value b then b
  else none

/-- The lines claim C8 describes as ignored by the line-oriented fallback,
relative to the label table of a variant: after stripping, the line is
blank, starts with the bold marker or the separator marker, does not start
with a dash and space, has no colon-space separator, or carries a label
that the alias table does not know. -/
def lineIgnoredWith {σ : Type} (tbl : List (String × (σ → String → σ)))
    (lraw : List Char) : Bool :=
  let line := pyStripL lraw
  if line = [] then true
  else if "**".data.isPrefixOf line then true
  else if "---".data.isPrefixOf line then true
  else if "- ".data.isPrefixOf line && (splitFirstL colonSpace line).isSome then
    match splitFirstL colonSpace (line.drop 2) with
    | some (f, _) => (tbl.lookup (String.mk (pyStripL f))).isNone
    | none => true
  else true

/-- Spec-side merge of a StudyIdentification section with a present docling
sub-record: every field is governed by the default prefer-non-empty rule. -/
def specMergeIdentification (da : Hybrid.StudyIdentification)
    (p : Option Hybrid.StudyIdentification) : Hybrid.StudyIdentification :=
  { title := preferNonEmptySpec da.title (Hybrid.getOpt p (·.title))
    lead_author := preferNonEmptySpec da.lead_author (Hybrid.getOpt p (·.lead_author))
    year := preferNonEmptySpec da.year (Hybrid.getOpt p (·.year))
    journal := preferNonEmptySpec da.journal (Hybrid.getOpt p (·.journal))
    doi := preferNonEmptySpec da.doi (Hybrid.getOpt p (·.doi))
    country := preferNonEmptySpec da.country (Hybrid.getOpt p (·.country)) }

/-- Spec-side merge of a StudyCharacteristics section: all defaults. -/
def specMergeCharacteristics (da : Hybrid.StudyCharacteristics)
    (p : Option Hybrid.StudyCharacteristics) : Hybrid.StudyCharacteristics :=
  { study_aim := preferNonEmptySpec da.study_aim (Hybrid.getOpt p (·.study_aim))
    followup_duration := preferNonEmptySpec da.followup_duration (Hybrid.getOpt p (·.followup_duration))
    multisite_study := preferNonEmptySpec da.multisite_study (Hybrid.getOpt p (·.multisite_study)) }

/-- Spec-side merge of a Participants section: all defaults. -/
def specMergeParticipants (da : Hybrid.Participants)
    (p : Option Hybrid.Participants) : Hybrid.Participants :=
  { clinical_population := preferNonEmptySpec da.clinical_population (Hybrid.getOpt p (·.clinical_population))
    n_patient_group := preferNonEmptySpec da.n_patient_group (Hybrid.getOpt p (·.n_patient_group))
    n_control_group := preferNonEmptySpec da.n_control_group (Hybrid.getOpt p (·.n_control_group))
    n_overall := preferNonEmptySpec da.n_overall (Hybrid.getOpt p (·.n_overall))
    mean_age_patient := preferNonEmptySpec da.mean_age_patient (Hybrid.getOpt p (·.mean_age_patient))
    sd_age_patient := preferNonEmptySpec da.sd_age_patient (Hybrid.getOpt p (·.sd_age_patient))
    mean_age_control := preferNonEmptySpec da.mean_age_control (Hybrid.getOpt p (·.mean_age_control))
    sd_age_control := preferNonEmptySpec da.sd_age_control (Hybrid.getOpt p (·.sd_age_control))
    age_range_patient := preferNonEmptySpec da.age_range_patient (Hybrid.getOpt p (·.age_range_patient))
    age_range_control := preferNonEmptySpec da.age_range_control (Hybrid.getOpt p (·.age_range_control))
    gender_distribution_patient := preferNonEmptySpec da.gender_distribution_patient (Hybrid.getOpt p (·.gender_distribution_patient))
    gender_distribution_control := preferNonEmptySpec da.gender_distribution_control (Hybrid.getOpt p (·.gender_distribution_control)) }

/-- Spec-side merge of an MRIAcquisition section: the seven technical
fields are fixed-source with the docling pipeline preferred, the other two
keep the default rule. -/
def specMergeMRIAcquisition (da : Hybrid.MRIAcquisition)
    (p : Option Hybrid.MRIAcquisition) : Hybrid.MRIAcquisition :=
  { scanner_strength := fixedSourceSpec da.scanner_strength (Hybrid.getOpt p (·.scanner_strength))
    scanner_manufacturer := fixedSourceSpec da.scanner_manufacturer (Hybrid.getOpt p (·.scanner_manufacturer))
    b_values := fixedSourceSpec da.b_values (Hybrid.getOpt p (·.b_values))
    gradient_directions := fixedSourceSpec da.gradient_directions (Hybrid.getOpt p (·.gradient_directions))
    reverse_phase_encoding := preferNonEmptySpec da.reverse_phase_encoding (Hybrid.getOpt p (·.reverse_phase_encoding))
    voxel_size := fixedSourceSpec da.voxel_size (Hybrid.getOpt p (·.voxel_size))
    tr := fixedSourceSpec da.tr (Hybrid.getOpt p (·.tr))
    te := fixedSourceSpec da.te (Hybrid.getOpt p (·.te))
    acquisition_time := preferNonEmptySpec da.acquisition_time (Hybrid.getOpt p (·.acquisition_time)) }

/-- Spec-side merge of an AnalysisMethods section: all defaults. -/
def specMergeAnalysisMethods (da : Hybrid.AnalysisMethods)
    (p : Option Hybrid.AnalysisMethods) : Hybrid.AnalysisMethods :=
  { preprocessing_steps := preferNonEmptySpec da.preprocessing_steps (Hybrid.getOpt p (·.preprocessing_steps))
    analysis_software := preferNonEmptySpec da.analysis_software (Hybrid.getOpt p (·.analysis_software))
    analysis_approach := preferNonEmptySpec da.analysis_approach (Hybrid.getOpt p (·.analysis_approach))
    free_water_method := preferNonEmptySpec da.free_water_method (Hybrid.getOpt p (·.free_water_method))
    regions_analyzed := preferNonEmptySpec da.regions_analyzed (Hybrid.getOpt p (·.regions_analyzed))
    free_water_metrics_reported := preferNonEmptySpec da.free_water_metrics_reported (Hybrid.getOpt p (·.free_water_metrics_reported))
    if_atlas_name_of_atlas := preferNonEmptySpec da.if_atlas_name_of_atlas (Hybrid.getOpt p (·.if_atlas_name_of_atlas))
    roi_definition_method := preferNonEmptySpec da.roi_definition_method (Hybrid.getOpt p (·.roi_definition_method)) }

/-- Spec-side merge of a FreeWaterResults section: all three fields are
fixed-source with the pymupdf pipeline preferred, so the pymupdf value
stands first in the fixed-source rule. -/
def specMergeFreeWaterResults (da : Hybrid.FreeWaterResults)
    (p : Option Hybrid.FreeWaterResults) : Hybrid.FreeWaterResults :=
  { clinical_group_fw_values := fixedSourceSpec (Hybrid.getOpt p (·.clinical_group_fw_values)) da.clinical_group_fw_values
    control_group_fw_values := fixedSourceSpec (Hybrid.getOpt p (·.control_group_fw_values)) da.control_group_fw_values
    group_comparison_p_value := fixedSourceSpec (Hybrid.getOpt p (·.group_comparison_p_value)) da.group_comparison_p_value }

/-- Spec-side merge of a Correlations section. -/
def specMergeCorrelations (da : Hybrid.Correlations)
    (p : Option Hybrid.Correlations) : Hybrid.Correlations :=
  { correlations_reported := preferNonEmptySpec da.correlations_reported (Hybrid.getOpt p (·.correlations_reported))
    correlation_coefficients := fixedSourceSpec (Hybrid.getOpt p (·.correlation_coefficients)) da.correlation_coefficients }

/-- Spec-side merge of a KeyFindings section. -/
def specMergeKeyFindings (da : Hybrid.KeyFindings)
    (p : Option Hybrid.KeyFindings) : Hybrid.KeyFindings :=
  { longitudinal_data_available := preferNonEmptySpec da.longitudinal_data_available (Hybrid.getOpt p (·.longitudinal_data_available))
    longitudinal_data_results := preferNonEmptySpec da.longitudinal_data_results (Hybrid.getOpt p (·.longitudinal_data_results))
    primary_finding := preferNonEmptySpec da.primary_finding (Hybrid.getOpt p (·.primary_finding))
    main_interpretation := fixedSourceSpec (Hybrid.getOpt p (·.main_interpretation)) da.main_interpretation
    key_limitations := fixedSourceSpec (Hybrid.getOpt p (·.key_limitations)) da.key_limitations
    other_measures := preferNonEmptySpec da.other_measures (Hybrid.getOpt p (·.other_measures)) }

/-- dropWhile never lengthens a list. -/
theorem dropWhile_len_le (p : Char → Bool) (l : List Char) :
    (l.dropWhile p).length ≤ l.length := by
  induction l with
  | nil => simp
  | cons a t ih =>
    by_cases h : p a
    · rw [List.dropWhile_cons_of_pos h]
      exact le_trans ih (Nat.le_succ _)
    · rw [List.dropWhile_cons_of_neg h]

/-- A dropWhile of full length dropped nothing. -/
theorem dropWhile_eq_of_len (p : Char → Bool) (l : List Char)
    (h : (l.dropWhile p).length = l.length) : l.dropWhile p = l := by
  cases l with
  | nil => simp
  | cons a t =>
    by_cases hpa : p a
    · exfalso
      rw [List.dropWhile_cons_of_pos hpa] at h
      rw [List.length_cons] at h
      have := dropWhile_len_le p t
      omega
    · rw [List.dropWhile_cons_of_neg hpa]

/-- A nonempty list unchanged by dropWhile stays unchanged when something is
appended to it. -/
theorem dropWhile_append_of_eq_self (p : Char → Bool) (l k : List Char)
    (h : l.dropWhile p = l) (hne : l ≠ []) :
    (l ++ k).dropWhile p = l ++ k := by
  cases l with
  | nil => exact absurd rfl hne
  | cons a t =>
    have hpa : p a = false := by
      by_cases hp : p a
      · exfalso
        rw [List.dropWhile_cons_of_pos hp] at h
        have h1 := congrArg List.length h
        rw [List.length_cons] at h1
        have h2 := dropWhile_len_le p t
        omega
      · exact Bool.of_not_eq_true hp
    rw [List.cons_append, List.dropWhile_cons_of_neg (by simp [hpa])]

/-- A list fixed by the strip operation is already stripped at both ends. -/
theorem pyStripL_eq_self_parts (l : List Char) (h : pyStripL l = l) :
    l.dropWhile isPyWS = l ∧ l.reverse.dropWhile isPyWS = l.reverse := by
  unfold pyStripL at h
  have hlen := congrArg List.length h
  simp only [List.length_reverse] at hlen
  have h1 : (l.dropWhile isPyWS).length = l.length := by
    have a1 := dropWhile_len_le isPyWS l
    have a2 := dropWhile_len_le isPyWS (l.dropWhile isPyWS).reverse
    simp only [List.length_reverse] at a2
    omega
  have hdw : l.dropWhile isPyWS = l := dropWhile_eq_of_len _ _ h1
  rw [hdw] at h
  have h2 : (l.reverse.dropWhile isPyWS).length = l.reverse.length := by
    have := congrArg List.length h
    simp only [List.length_reverse] at this ⊢
    omega
  exact ⟨hdw, dropWhile_eq_of_len _ _ h2⟩

/-- Stripping fixes the concatenation of an already left-stripped nonempty
prefix and an already right-stripped nonempty suffix. -/
theorem pyStripL_append_of (p l : List Char)
    (hp : p.dropWhile isPyWS = p) (hpne : p ≠ [])
    (hl : l.reverse.dropWhile isPyWS = l.reverse) (hlne : l ≠ []) :
    pyStripL (p ++ l) = p ++ l := by
  unfold pyStripL
  rw [dropWhile_append_of_eq_self _ _ _ hp hpne]
  rw [List.reverse_append]
  rw [dropWhile_append_of_eq_self _ _ _ hl (by simp [hlne])]
  rw [← List.reverse_append, List.reverse_reverse]

/-- Splitting on a character that does not occur returns the single piece. -/
theorem splitOnChar_no_sep (sep : Char) (l : List Char)
    (h : ∀ c ∈ l, c ≠ sep) : splitOnChar sep l = [l] := by
  induction l with
  | nil => rfl
  | cons a t ih =>
    have ha : a ≠ sep := h a (List.mem_cons_self a t)
    have ht : splitOnChar sep t = [t] := ih (fun c hc => h c (List.mem_cons_of_mem a hc))
    unfold splitOnChar
    rw [if_neg ha, ht]

/-- When the colon-space pattern does not occur in the prefix, the first
split of the prefix-pattern-suffix concatenation lands on that pattern
occurrence. -/
theorem splitFirstL_colonSpace_append (L suf : List Char)
    (h : splitFirstL colonSpace L = none) :
    splitFirstL colonSpace (L ++ ':' :: ' ' :: suf) = some (L, suf) := by
  induction L with
  | nil =>
    simp only [List.nil_append]
    unfold splitFirstL
    rw [if_pos (by simp [colonSpace, List.isPrefixOf])]
    simp [colonSpace]
  | cons c t ih =>
    unfold splitFirstL at h
    by_cases hpre : colonSpace.isPrefixOf (c :: t) = true
    · rw [if_pos hpre] at h
      exact absurd h (by simp)
    · rw [if_neg hpre] at h
      have ht : splitFirstL colonSpace t = none := by
        cases hsp : splitFirstL colonSpace t with
        | none => rfl
        | some ab =>
          rw [hsp] at h
          exact absurd h (by cases ab; simp)
      have hpreb : colonSpace.isPrefixOf (c :: t) = false := Bool.of_not_eq_true hpre
      have hpre2 : colonSpace.isPrefixOf (c :: (t ++ ':' :: ' ' :: suf)) = false := by
        simp only [colonSpace, List.isPrefixOf] at hpreb ⊢
        rcases Bool.and_eq_false_iff.mp hpreb with hc | hrest
        · exact Bool.and_eq_false_iff.mpr (Or.inl hc)
        · refine Bool.and_eq_false_iff.mpr (Or.inr ?_)
          cases t with
          | nil =>
            simp [List.isPrefixOf]
          | cons d u =>
            simp only [List.isPrefixOf] at hrest ⊢
            rcases Bool.and_eq_false_iff.mp hrest with hd | htail
            · exact Bool.and_eq_false_iff.mpr (Or.inl hd)
            · exact absurd htail (by simp)
      rw [List.cons_append]
      unfold splitFirstL
      rw [if_neg (by rw [hpre2]; exact Bool.false_ne_true)]
      rw [ih ht]

/-- Stepping the first-occurrence split over a head that does not start the
pattern prepends that head to the before-part. -/
theorem splitFirstL_cons_some (pat : List Char) (c : Char) (rest a b : List Char)
    (h : pat.isPrefixOf (c :: rest) = false)
    (hr : splitFirstL pat rest = some (a, b)) :
    splitFirstL pat (c :: rest) = some (c :: a, b) := by
  unfold splitFirstL
  rw [if_neg (by rw [h]; exact Bool.false_ne_true), hr]

/-- Evaluation of the shared per-line processor on an already stripped line
of the form dash space Label colon space value, whose label part contains
no colon-space pattern of its own: the label and value are stripped and
dispatched. -/
theorem processLineG_label_line {σ : Type} (apply : σ → String → String → σ)
    (st : σ) (L vd : List Char)
    (hL : splitFirstL colonSpace L = none)
    (hstrip : pyStripL ('-' :: ' ' :: (L ++ ':' :: ' ' :: vd))
      = '-' :: ' ' :: (L ++ ':' :: ' ' :: vd)) :
    processLineG apply st ('-' :: ' ' :: (L ++ ':' :: ' ' :: vd))
      = apply st (String.mk (pyStripL L)) (String.mk (pyStripL vd)) := by
  have hmid : splitFirstL colonSpace (L ++ ':' :: ' ' :: vd) = some (L, vd) :=
    splitFirstL_colonSpace_append L vd hL
  have h1 : splitFirstL colonSpace (' ' :: (L ++ ':' :: ' ' :: vd))
      = some (' ' :: L, vd) :=
    splitFirstL_cons_some _ _ _ _ _ rfl hmid
  have h2 : splitFirstL colonSpace ('-' :: ' ' :: (L ++ ':' :: ' ' :: vd))
      = some ('-' :: ' ' :: L, vd) :=
    splitFirstL_cons_some _ _ _ _ _ rfl h1
  unfold processLineG
  rw [hstrip]
  rw [if_neg (by simp)]
  rw [if_neg (by rw [show "**".data.isPrefixOf ('-' :: ' ' :: (L ++ ':' :: ' ' :: vd)) = false from rfl]; exact Bool.false_ne_true)]
  rw [if_neg (by rw [show "---".data.isPrefixOf ('-' :: ' ' :: (L ++ ':' :: ' ' :: vd)) = false from rfl]; exact Bool.false_ne_true)]
  rw [if_pos (by rw [h2, show "- ".data = ['-', ' '] from rfl]; simp [List.isPrefixOf])]
  rw [show ('-' :: ' ' :: (L ++ ':' :: ' ' :: vd)).drop 2 = L ++ ':' :: ' ' :: vd from rfl]
  rw [hmid]

/-- Evaluation of the line-oriented fallback loop on a single input line of
the form dash space Label colon space value, for an already stripped label
without inner colon-space and an already stripped, nonempty, newline-free
value: the loop performs exactly one dispatch of that label and value. -/
theorem parseLinesG_label {σ : Type} (apply : σ → String → String → σ)
    (init : σ) (L : List Char) (v : String)
    (hL : splitFirstL colonSpace L = none)
    (hLs : pyStripL L = L)
    (hLnl : '\n' ∉ L)
    (hv : pyStrip v = v) (hvne : v ≠ "") (hvnl : '\n' ∉ v.data) :
    parseLinesG apply init (String.mk ('-' :: ' ' :: (L ++ ':' :: ' ' :: v.data)))
      = apply init (String.mk L) v := by
  have hvd : pyStripL v.data = v.data := congrArg String.data hv
  have hvdne : v.data ≠ [] := by
    intro h
    apply hvne
    have hh : v = String.mk v.data := rfl
    rw [h] at hh
    exact hh
  have hrev : v.data.reverse.dropWhile isPyWS = v.data.reverse :=
    (pyStripL_eq_self_parts v.data hvd).2
  have hshape : ('-' :: ' ' :: (L ++ [':', ' '])) ++ v.data
      = '-' :: ' ' :: (L ++ ':' :: ' ' :: v.data) := by
    simp [List.cons_append, List.append_assoc]
  have hfull : pyStripL ('-' :: ' ' :: (L ++ ':' :: ' ' :: v.data))
      = '-' :: ' ' :: (L ++ ':' :: ' ' :: v.data) := by
    rw [← hshape]
    exact pyStripL_append_of _ _
      (List.dropWhile_cons_of_neg (by decide)) (by simp) hrev hvdne
  have hnl : '\n' ∉ '-' :: ' ' :: (L ++ ':' :: ' ' :: v.data) := by
    simp only [List.mem_cons, List.mem_append, not_or]
    exact ⟨by decide, by decide, hLnl, by decide, by decide, hvnl⟩
  have hsplit : splitOnChar '\n' ('-' :: ' ' :: (L ++ ':' :: ' ' :: v.data))
      = ['-' :: ' ' :: (L ++ ':' :: ' ' :: v.data)] :=
    splitOnChar_no_sep _ _ (fun c hc h => hnl (h ▸ hc))
  unfold parseLinesG
  rw [show (String.mk ('-' :: ' ' :: (L ++ ':' :: ' ' :: v.data))).data
    = '-' :: ' ' :: (L ++ ':' :: ' ' :: v.data) from rfl]
  rw [hfull, hsplit, List.foldl_cons, List.foldl_nil]
  rw [processLineG_label_line apply init L v.data hL hfull]
  rw [hLs, hvd]

/-- The docling-preferred branch of the merge loop is the fixed-source rule
of the specification with docling as pipeline A. -/
theorem prio_docling_eq_spec (a b : Option String) :
    Hybrid.prio_docling a b = fixedSourceSpec a b := rfl

/-- The pymupdf-preferred branch of the merge loop is the fixed-source rule
of the specification with pymupdf as pipeline A. -/
theorem prio_pymupdf_eq_spec (a b : Option String) :
    Hybrid.prio_pymupdf a b = fixedSourceSpec b a := rfl

/-- The prefer_non_empty branch of the merge loop agrees with the
prefer-non-empty rule as the specification words it: the greater-or-equal
comparison with docling first is the same as keeping the strictly longer
value with ties going to docling. -/
theorem prio_pne_eq_spec (a b : Option String) :
    Hybrid.prio_prefer_non_empty a b = preferNonEmptySpec a b := by
  unfold Hybrid.prio_prefer_non_empty preferNonEmptySpec
  by_cases ha : Hybrid.is_meaningful_value a <;>
    by_cases hb : Hybrid.is_meaningful_value b <;>
    simp [ha, hb]
  rcases Nat.lt_trichotomy (pyStr a).length (pyStr b).length with h | h | h
  · rw [if_neg (by omega), if_neg (by omega), if_pos (by omega)]
  · rw [if_pos (by omega), if_neg (by omega), if_neg (by omega)]
  · rw [if_pos (by omega), if_pos (by omega)]

/-- The merge loop body for a present docling StudyIdentification agrees
with the spec-side section merge. -/
theorem mergeIdentification_some (da : Hybrid.StudyIdentification)
    (p : Option Hybrid.StudyIdentification) :
    Hybrid.mergeIdentification (some da) p = some (specMergeIdentification da p) := by
  simp [Hybrid.mergeIdentification, specMergeIdentification, prio_pne_eq_spec]

/-- An absent docling StudyIdentification skips the field loop. -/
theorem mergeIdentification_none (p : Option Hybrid.StudyIdentification) :
    Hybrid.mergeIdentification none p = p.map (fun _ => {}) := by
  cases p <;> rfl

/-- The merge loop body for a present docling StudyCharacteristics agrees
with the spec-side section merge. -/
theorem mergeCharacteristics_some (da : Hybrid.StudyCharacteristics)
    (p : Option Hybrid.StudyCharacteristics) :
    Hybrid.mergeCharacteristics (some da) p = some (specMergeCharacteristics da p) := by
  simp [Hybrid.mergeCharacteristics, specMergeCharacteristics, prio_pne_eq_spec]

/-- An absent docling StudyCharacteristics skips the field loop. -/
theorem mergeCharacteristics_none (p : Option Hybrid.StudyCharacteristics) :
    Hybrid.mergeCharacteristics none p = p.map (fun _ => {}) := by
  cases p <;> rfl

/-- The merge loop body for a present docling Participants agrees with the
spec-side section merge. -/
theorem mergeParticipants_some (da : Hybrid.Participants)
    (p : Option Hybrid.Participants) :
    Hybrid.mergeParticipants (some da) p = some (specMergeParticipants da p) := by
  simp [Hybrid.mergeParticipants, specMergeParticipants, prio_pne_eq_spec]

/-- An absent docling Participants skips the field loop. -/
theorem mergeParticipants_none (p : Option Hybrid.Participants) :
    Hybrid.mergeParticipants none p = p.map (fun _ => {}) := by
  cases p <;> rfl

/-- The merge loop body for a present docling MRIAcquisition agrees with
the spec-side section merge. -/
theorem mergeMRIAcquisition_some (da : Hybrid.MRIAcquisition)
    (p : Option Hybrid.MRIAcquisition) :
    Hybrid.mergeMRIAcquisition (some da) p = some (specMergeMRIAcquisition da p) := by
  simp [Hybrid.mergeMRIAcquisition, specMergeMRIAcquisition, prio_pne_eq_spec,
    prio_docling_eq_spec]

/-- An absent docling MRIAcquisition skips the field loop. -/
theorem mergeMRIAcquisition_none (p : Option Hybrid.MRIAcquisition) :
    Hybrid.mergeMRIAcquisition none p = p.map (fun _ => {}) := by
  cases p <;> rfl

/-- The merge loop body for a present docling AnalysisMethods agrees with
the spec-side section merge. -/
theorem mergeAnalysisMethods_some (da : Hybrid.AnalysisMethods)
    (p : Option Hybrid.AnalysisMethods) :
    Hybrid.mergeAnalysisMethods (some da) p = some (specMergeAnalysisMethods da p) := by
  simp [Hybrid.mergeAnalysisMethods, specMergeAnalysisMethods, prio_pne_eq_spec]

/-- An absent docling AnalysisMethods skips the field loop. -/
theorem mergeAnalysisMethods_none (p : Option Hybrid.AnalysisMethods) :
    Hybrid.mergeAnalysisMethods none p = p.map (fun _ => {}) := by
  cases p <;> rfl

/-- The merge loop body for a present docling FreeWaterResults agrees with
the spec-side section merge. -/
theorem mergeFreeWaterResults_some (da : Hybrid.FreeWaterResults)
    (p : Option Hybrid.FreeWaterResults) :
    Hybrid.mergeFreeWaterResults (some da) p = some (specMergeFreeWaterResults da p) := by
  simp [Hybrid.mergeFreeWaterResults, specMergeFreeWaterResults, prio_pymupdf_eq_spec]

/-- An absent docling FreeWaterResults skips the field loop. -/
theorem mergeFreeWaterResults_none (p : Option Hybrid.FreeWaterResults) :
    Hybrid.mergeFreeWaterResults none p = p.map (fun _ => {}) := by
  cases p <;> rfl

/-- The merge loop body for a present docling Correlations agrees with the
spec-side section merge. -/
theorem mergeCorrelations_some (da : Hybrid.Correlations)
    (p : Option Hybrid.Correlations) :
    Hybrid.mergeCorrelations (some da) p = some (specMergeCorrelations da p) := by
  simp [Hybrid.mergeCorrelations, specMergeCorrelations, prio_pne_eq_spec,
    prio_pymupdf_eq_spec]

/-- An absent docling Correlations skips the field loop. -/
theorem mergeCorrelations_none (p : Option Hybrid.Correlations) :
    Hybrid.mergeCorrelations none p = p.map (fun _ => {}) := by
  cases p <;> rfl

/-- The merge loop body for a present docling KeyFindings agrees with the
spec-side section merge. -/
theorem mergeKeyFindings_some (da : Hybrid.KeyFindings)
    (p : Option Hybrid.KeyFindings) :
    Hybrid.mergeKeyFindings (some da) p = some (specMergeKeyFindings da p) := by
  simp [Hybrid.mergeKeyFindings, specMergeKeyFindings, prio_pne_eq_spec,
    prio_pymupdf_eq_spec]

/-- An absent docling KeyFindings skips the field loop. -/
theorem mergeKeyFindings_none (p : Option Hybrid.KeyFindings) :
    Hybrid.mergeKeyFindings none p = p.map (fun _ => {}) := by
  cases p <;> rfl

/-- The no-error branch of merge_extraction_results, unfolded. -/
theorem merge_no_error (dr pr : Hybrid.ExtractedData) (fn : String)
    (hd : errSet dr.error = false) (hp : errSet pr.error = false) :
    Hybrid.merge_extraction_results dr pr fn =
      { filename := some fn
        extraction_method := some "hybrid"
        error := none
        identification := Hybrid.mergeIdentification dr.identification pr.identification
        characteristics := Hybrid.mergeCharacteristics dr.characteristics pr.characteristics
        participants := Hybrid.mergeParticipants dr.participants pr.participants
        mri_acquisition := Hybrid.mergeMRIAcquisition dr.mri_acquisition pr.mri_acquisition
        analysis_methods := Hybrid.mergeAnalysisMethods dr.analysis_methods pr.analysis_methods
        free_water_results := Hybrid.mergeFreeWaterResults dr.free_water_results pr.free_water_results
        correlations := Hybrid.mergeCorrelations dr.correlations pr.correlations
        key_findings := Hybrid.mergeKeyFindings dr.key_findings pr.key_findings } := by
  unfold Hybrid.merge_extraction_results
  rw [hd, hp]
  simp

/-- A line the ignored-line predicate marks leaves the fold state of the
line-oriented fallback unchanged. -/
theorem processLine_ignored {σ : Type} (tbl : List (String × (σ → String → σ)))
    (lraw : List Char) (h : lineIgnoredWith tbl lraw = true) (st : σ) :
    processLineG (applyTable tbl) st lraw = st := by
  simp only [lineIgnoredWith] at h
  simp only [processLineG]
  split_ifs at h ⊢ with h1 h2 h3 h4
  · rfl
  · rfl
  · rfl
  · rcases hsp : splitFirstL colonSpace ((pyStripL lraw).drop 2) with _ | ⟨f, vv⟩
    · rfl
    · rw [hsp] at h
      have h' : (List.lookup (String.mk (pyStripL f)) tbl).isNone = true := h
      rw [Option.isNone_iff_eq_none] at h'
      show applyTable tbl st (String.mk (pyStripL f)) (String.mk (pyStripL vv)) = st
      simp [applyTable, h']
  · rfl

/-- Folding a function skips the elements a predicate marks as identity. -/
theorem foldl_filter_id {σ : Type} (f : σ → List Char → σ)
    (pIgn : List Char → Bool)
    (hid : ∀ st l, pIgn l = true → f st l = st) (init : σ)
    (ls : List (List Char)) :
    ls.foldl f init = (ls.filter (fun l => !pIgn l)).foldl f init := by
  induction ls generalizing init with
  | nil => rfl
  | cons a t ih =>
    cases ha : pIgn a with
    | true =>
      rw [List.foldl_cons, hid init a ha, List.filter_cons_of_neg (by simp [ha])]
      exact ih init
    | false =>
      rw [List.foldl_cons, List.filter_cons_of_pos (by simp [ha]), List.foldl_cons]
      exact ih (f init a)

/-- Appending cannot turn a nonempty string into the empty string. -/
theorem append_ne_empty_left (a b : String) (h : a ≠ "") : a ++ b ≠ "" := by
  intro hab
  apply h
  have hd := congrArg String.data hab
  rw [show (a ++ b).data = a.data ++ b.data from rfl] at hd
  rcases List.append_eq_nil.mp hd with ⟨ha, _⟩
  have : a = String.mk a.data := rfl
  rw [ha] at this
  exact this

/-- C1: the response parsers of both extraction scripts are total. For
every raw response text and every behaviour of the decode sub-steps they
return an ExtractedData record; every internal failure (unsupported model,
client exception, empty response, a decode-step exception other than a JSON
decode error) yields a record whose error field is a non-empty string, and
a JSON decode failure in particular makes extract_data_with_ai and
extract_data_with_gemini return the line-oriented fallback parse of the raw
response rather than raising. -/
theorem c1_parsers_never_raise :
    (∀ (m : String) (api : ApiOutcome) (d : String → DecodeOutcome),
      (¬ (m = "gemini" ∨ m = "claude")
          ∨ (∃ msg, api = .exception msg)
          ∨ api = .success ""
          ∨ (∃ raw msg, api = .success raw ∧ d (cleanResponse raw) = .otherException msg)) →
      ∃ s, (Hybrid.extract_data_with_ai m api d).error = some s ∧ s ≠ "")
    ∧ (∀ (m : String) (raw : String) (d : String → DecodeOutcome),
        (m = "gemini" ∨ m = "claude") → raw ≠ "" →
        d (cleanResponse raw) = .jsonDecodeError →
        Hybrid.extract_data_with_ai m (.success raw) d
          = Hybrid.parse_structured_response raw)
    ∧ (∀ (api : ApiOutcome) (d : String → DecodeOutcome),
        ((∃ msg, api = .exception msg)
          ∨ api = .success ""
          ∨ (∃ raw msg, api = .success raw ∧ d (cleanResponse raw) = .otherException msg)) →
        ∃ s, (Gemini.extract_data_with_gemini api d).error = some s ∧ s ≠ "")
    ∧ (∀ (raw : String) (d : String → DecodeOutcome), raw ≠ "" →
        d (cleanResponse raw) = .jsonDecodeError →
        Gemini.extract_data_with_gemini (.success raw) d
          = Gemini.parse_structured_response raw) := by
  refine ⟨?_, ?_, ?_, ?_⟩
  · intro m api d hfail
    unfold Hybrid.extract_data_with_ai
    by_cases hm : m = "gemini" ∨ m = "claude"
    · rw [if_pos hm]
      rcases hfail with hns | ⟨msg, rfl⟩ | rfl | ⟨raw, msg, rfl, hdec⟩
      · exact absurd hm hns
      · exact ⟨_, rfl, append_ne_empty_left _ _ (by decide)⟩
      · dsimp only
        rw [if_pos rfl]
        exact ⟨_, rfl, by decide⟩
      · dsimp only
        by_cases hraw : raw = ""
        · rw [if_pos hraw]
          exact ⟨_, rfl, by decide⟩
        · rw [if_neg hraw, hdec]
          exact ⟨_, rfl, append_ne_empty_left _ _ (by decide)⟩
    · rw [if_neg hm]
      exact ⟨_, rfl, append_ne_empty_left _ _ (by decide)⟩
  · intro m raw d hm hraw hdec
    unfold Hybrid.extract_data_with_ai
    rw [if_pos hm]
    dsimp only
    rw [if_neg hraw, hdec]
  · intro api d hfail
    unfold Gemini.extract_data_with_gemini
    rcases hfail with ⟨msg, rfl⟩ | rfl | ⟨raw, msg, rfl, hdec⟩
    · exact ⟨_, rfl, append_ne_empty_left _ _ (by decide)⟩
    · dsimp only
      rw [if_pos rfl]
      exact ⟨_, rfl, by decide⟩
    · dsimp only
      by_cases hraw : raw = ""
      · rw [if_pos hraw]
        exact ⟨_, rfl, by decide⟩
      · rw [if_neg hraw, hdec]
        exact ⟨_, rfl, append_ne_empty_left _ _ (by decide)⟩
  · intro raw d hraw hdec
    unfold Gemini.extract_data_with_gemini
    dsimp only
    rw [if_neg hraw, hdec]

/-- Witness for C1 at concrete inputs: a client exception yields a
non-empty error record, and a JSON decode failure on a concrete response
yields the line-oriented fallback parse. -/
theorem c1_witness :
    (∃ s, (Hybrid.extract_data_with_ai "claude" (.exception "boom")
        (fun _ => .jsonDecodeError)).error = some s ∧ s ≠ "")
    ∧ Gemini.extract_data_with_gemini (.success "no json here")
        (fun _ => .jsonDecodeError)
      = Gemini.parse_structured_response "no json here" :=
  ⟨c1_parsers_never_raise.1 "claude" _ _ (Or.inr (Or.inl ⟨"boom", rfl⟩)),
   c1_parsers_never_raise.2.2.2 "no json here" _ (by decide) rfl⟩

/-- C2: for error-free inputs whose docling record carries an
MRIAcquisition section, every fixed-source docling field of the merged
record (scanner_strength, scanner_manufacturer, b_values,
gradient_directions, voxel_size, tr, te) equals the docling value when it
is meaningful and the pymupdf value otherwise, as the fixed-source rule of
the specification words it. -/
theorem c2_fixed_source_docling (dr pr : Hybrid.ExtractedData) (fn : String)
    (hd : errSet dr.error = false) (hp : errSet pr.error = false)
    (da : Hybrid.MRIAcquisition) (hda : dr.mri_acquisition = some da) :
    ∃ mm, (Hybrid.merge_extraction_results dr pr fn).mri_acquisition = some mm
      ∧ mm.scanner_strength
          = fixedSourceSpec da.scanner_strength (Hybrid.getOpt pr.mri_acquisition (·.scanner_strength))
      ∧ mm.scanner_manufacturer
          = fixedSourceSpec da.scanner_manufacturer (Hybrid.getOpt pr.mri_acquisition (·.scanner_manufacturer))
      ∧ mm.b_values
          = fixedSourceSpec da.b_values (Hybrid.getOpt pr.mri_acquisition (·.b_values))
      ∧ mm.gradient_directions
          = fixedSourceSpec da.gradient_directions (Hybrid.getOpt pr.mri_acquisition (·.gradient_directions))
      ∧ mm.voxel_size
          = fixedSourceSpec da.voxel_size (Hybrid.getOpt pr.mri_acquisition (·.voxel_size))
      ∧ mm.tr = fixedSourceSpec da.tr (Hybrid.getOpt pr.mri_acquisition (·.tr))
      ∧ mm.te = fixedSourceSpec da.te (Hybrid.getOpt pr.mri_acquisition (·.te)) := by
  rw [merge_no_error dr pr fn hd hp]
  dsimp only
  rw [hda, mergeMRIAcquisition_some]
  exact ⟨_, rfl, rfl, rfl, rfl, rfl, rfl, rfl, rfl⟩

/-- Witness for C2: scanner strength 3T against the Not reported sentinel
merges to 3T in both directions. -/
theorem c2_witness :
    (∃ mm, (Hybrid.merge_extraction_results
        { mri_acquisition := some { scanner_strength := some "3T" } }
        { mri_acquisition := some { scanner_strength := some "Not reported" } }
        "f.pdf").mri_acquisition = some mm ∧ mm.scanner_strength = some "3T")
    ∧ (∃ mm, (Hybrid.merge_extraction_results
        { mri_acquisition := some { scanner_strength := some "Not reported" } }
        { mri_acquisition := some { scanner_strength := some "3T" } }
        "f.pdf").mri_acquisition = some mm ∧ mm.scanner_strength = some "3T") := by
  constructor
  · obtain ⟨mm, h1, h2, _⟩ := c2_fixed_source_docling
      { mri_acquisition := some { scanner_strength := some "3T" } }
      { mri_acquisition := some { scanner_strength := some "Not reported" } }
      "f.pdf" rfl rfl _ rfl
    exact ⟨mm, h1, by rw [h2]; decide⟩
  · obtain ⟨mm, h1, h2, _⟩ := c2_fixed_source_docling
      { mri_acquisition := some { scanner_strength := some "Not reported" } }
      { mri_acquisition := some { scanner_strength := some "3T" } }
      "f.pdf" rfl rfl _ rfl
    exact ⟨mm, h1, by rw [h2]; decide⟩

/-- C3: for error-free inputs, every field governed by the
prefer-non-empty default, in any section present in the docling record,
merges as the specification words it: both meaningful gives the one with
the greater character count with ties to docling, exactly one meaningful
gives that one, neither gives an unset field. -/
theorem c3_prefer_non_empty_default (dr pr : Hybrid.ExtractedData) (fn : String)
    (hd : errSet dr.error = false) (hp : errSet pr.error = false) :
    (∀ da, dr.identification = some da →
      ∃ m, (Hybrid.merge_extraction_results dr pr fn).identification = some m
        ∧ m.title = preferNonEmptySpec da.title (Hybrid.getOpt pr.identification (·.title))
        ∧ m.lead_author = preferNonEmptySpec da.lead_author (Hybrid.getOpt pr.identification (·.lead_author))
        ∧ m.year = preferNonEmptySpec da.year (Hybrid.getOpt pr.identification (·.year))
        ∧ m.journal = preferNonEmptySpec da.journal (Hybrid.getOpt pr.identification (·.journal))
        ∧ m.doi = preferNonEmptySpec da.doi (Hybrid.getOpt pr.identification (·.doi))
        ∧ m.country = preferNonEmptySpec da.country (Hybrid.getOpt pr.identification (·.country)))
    ∧ (∀ da, dr.characteristics = some da →
      ∃ m, (Hybrid.merge_extraction_results dr pr fn).characteristics = some m
        ∧ m.study_aim = preferNonEmptySpec da.study_aim (Hybrid.getOpt pr.characteristics (·.study_aim))
        ∧ m.followup_duration = preferNonEmptySpec da.followup_duration (Hybrid.getOpt pr.characteristics (·.followup_duration))
        ∧ m.multisite_study = preferNonEmptySpec da.multisite_study (Hybrid.getOpt pr.characteristics (·.multisite_study)))
    ∧ (∀ da, dr.participants = some da →
      ∃ m, (Hybrid.merge_extraction_results dr pr fn).participants = some m
        ∧ m.clinical_population = preferNonEmptySpec da.clinical_population (Hybrid.getOpt pr.participants (·.clinical_population))
        ∧ m.n_patient_group = preferNonEmptySpec da.n_patient_group (Hybrid.getOpt pr.participants (·.n_patient_group))
        ∧ m.n_control_group = preferNonEmptySpec da.n_control_group (Hybrid.getOpt pr.participants (·.n_control_group))
        ∧ m.n_overall = preferNonEmptySpec da.n_overall (Hybrid.getOpt pr.participants (·.n_overall))
        ∧ m.mean_age_patient = preferNonEmptySpec da.mean_age_patient (Hybrid.getOpt pr.participants (·.mean_age_patient))
        ∧ m.sd_age_patient = preferNonEmptySpec da.sd_age_patient (Hybrid.getOpt pr.participants (·.sd_age_patient))
        ∧ m.mean_age_control = preferNonEmptySpec da.mean_age_control (Hybrid.getOpt pr.participants (·.mean_age_control))
        ∧ m.sd_age_control = preferNonEmptySpec da.sd_age_control (Hybrid.getOpt pr.participants (·.sd_age_control))
        ∧ m.age_range_patient = preferNonEmptySpec da.age_range_patient (Hybrid.getOpt pr.participants (·.age_range_patient))
        ∧ m.age_range_control = preferNonEmptySpec da.age_range_control (Hybrid.getOpt pr.participants (·.age_range_control))
        ∧ m.gender_distribution_patient = preferNonEmptySpec da.gender_distribution_patient (Hybrid.getOpt pr.participants (·.gender_distribution_patient))
        ∧ m.gender_distribution_control = preferNonEmptySpec da.gender_distribution_control (Hybrid.getOpt pr.participants (·.gender_distribution_control)))
    ∧ (∀ da, dr.mri_acquisition = some da →
      ∃ m, (Hybrid.merge_extraction_results dr pr fn).mri_acquisition = some m
        ∧ m.reverse_phase_encoding = preferNonEmptySpec da.reverse_phase_encoding (Hybrid.getOpt pr.mri_acquisition (·.reverse_phase_encoding))
        ∧ m.acquisition_time = preferNonEmptySpec da.acquisition_time (Hybrid.getOpt pr.mri_acquisition (·.acquisition_time)))
    ∧ (∀ da, dr.analysis_methods = some da →
      ∃ m, (Hybrid.merge_extraction_results dr pr fn).analysis_methods = some m
        ∧ m.preprocessing_steps = preferNonEmptySpec da.preprocessing_steps (Hybrid.getOpt pr.analysis_methods (·.preprocessing_steps))
        ∧ m.analysis_software = preferNonEmptySpec da.analysis_software (Hybrid.getOpt pr.analysis_methods (·.analysis_software))
        ∧ m.analysis_approach = preferNonEmptySpec da.analysis_approach (Hybrid.getOpt pr.analysis_methods (·.analysis_approach))
        ∧ m.free_water_method = preferNonEmptySpec da.free_water_method (Hybrid.getOpt pr.analysis_methods (·.free_water_method))
        ∧ m.regions_analyzed = preferNonEmptySpec da.regions_analyzed (Hybrid.getOpt pr.analysis_methods (·.regions_analyzed))
        ∧ m.free_water_metrics_reported = preferNonEmptySpec da.free_water_metrics_reported (Hybrid.getOpt pr.analysis_methods (·.free_water_metrics_reported))
        ∧ m.if_atlas_name_of_atlas = preferNonEmptySpec da.if_atlas_name_of_atlas (Hybrid.getOpt pr.analysis_methods (·.if_atlas_name_of_atlas))
        ∧ m.roi_definition_method = preferNonEmptySpec da.roi_definition_method (Hybrid.getOpt pr.analysis_methods (·.roi_definition_method)))
    ∧ (∀ da, dr.correlations = some da →
      ∃ m, (Hybrid.merge_extraction_results dr pr fn).correlations = some m
        ∧ m.correlations_reported = preferNonEmptySpec da.correlations_reported (Hybrid.getOpt pr.correlations (·.correlations_reported)))
    ∧ (∀ da, dr.key_findings = some da →
      ∃ m, (Hybrid.merge_extraction_results dr pr fn).key_findings = some m
        ∧ m.longitudinal_data_available = preferNonEmptySpec da.longitudinal_data_available (Hybrid.getOpt pr.key_findings (·.longitudinal_data_available))
        ∧ m.longitudinal_data_results = preferNonEmptySpec da.longitudinal_data_results (Hybrid.getOpt pr.key_findings (·.longitudinal_data_results))
        ∧ m.primary_finding = preferNonEmptySpec da.primary_finding (Hybrid.getOpt pr.key_findings (·.primary_finding))
        ∧ m.other_measures = preferNonEmptySpec da.other_measures (Hybrid.getOpt pr.key_findings (·.other_measures))) := by
  refine ⟨?_, ?_, ?_, ?_, ?_, ?_, ?_⟩ <;> intro da hda <;>
    rw [merge_no_error dr pr fn hd hp] <;> dsimp only <;> rw [hda]
  · rw [mergeIdentification_some]
    exact ⟨_, rfl, rfl, rfl, rfl, rfl, rfl, rfl⟩
  · rw [mergeCharacteristics_some]
    exact ⟨_, rfl, rfl, rfl, rfl⟩
  · rw [mergeParticipants_some]
    exact ⟨_, rfl, rfl, rfl, rfl, rfl, rfl, rfl, rfl, rfl, rfl, rfl, rfl, rfl⟩
  · rw [mergeMRIAcquisition_some]
    exact ⟨_, rfl, rfl, rfl⟩
  · rw [mergeAnalysisMethods_some]
    exact ⟨_, rfl, rfl, rfl, rfl, rfl, rfl, rfl, rfl, rfl⟩
  · rw [mergeCorrelations_some]
    exact ⟨_, rfl, rfl⟩
  · rw [mergeKeyFindings_some]
    exact ⟨_, rfl, rfl, rfl, rfl, rfl⟩

/-- Witness for C3: a longer pymupdf study aim beats a shorter docling one,
and equal-length meaningful titles tie-break to the docling value. -/
theorem c3_witness :
    (∃ m, (Hybrid.merge_extraction_results
        { characteristics := some { study_aim := some "short" } }
        { characteristics := some { study_aim := some "a longer aim" } }
        "f.pdf").characteristics = some m ∧ m.study_aim = some "a longer aim")
    ∧ (∃ m, (Hybrid.merge_extraction_results
        { identification := some { title := some "AAA" } }
        { identification := some { title := some "BBB" } }
        "f.pdf").identification = some m ∧ m.title = some "AAA") := by
  constructor
  · obtain ⟨m, h1, h2, _⟩ := (c3_prefer_non_empty_default
      { characteristics := some { study_aim := some "short" } }
      { characteristics := some { study_aim := some "a longer aim" } }
      "f.pdf" rfl rfl).2.1 _ rfl
    exact ⟨m, h1, by rw [h2]; decide⟩
  · obtain ⟨m, h1, h2, _⟩ := (c3_prefer_non_empty_default
      { identification := some { title := some "AAA" } }
      { identification := some { title := some "BBB" } }
      "f.pdf" rfl rfl).1 _ rfl
    exact ⟨m, h1, by rw [h2]; decide⟩

/-- C4: when exactly one input of merge_extraction_results carries an
error, the merged record is the error-free input with only its
extraction_method retagged: pymupdf_only when the docling input erred and
docling_only when the pymupdf input erred. -/
theorem c4_single_error_short_circuit (dr pr : Hybrid.ExtractedData) (fn : String) :
    (errSet dr.error = true → errSet pr.error = false →
      Hybrid.merge_extraction_results dr pr fn
        = { pr with extraction_method := some "pymupdf_only" })
    ∧ (errSet dr.error = false → errSet pr.error = true →
      Hybrid.merge_extraction_results dr pr fn
        = { dr with extraction_method := some "docling_only" }) := by
  constructor
  · intro hd hp
    unfold Hybrid.merge_extraction_results
    rw [hd, hp]
    simp
  · intro hd hp
    unfold Hybrid.merge_extraction_results
    rw [hd, hp]
    simp

/-- Witness for C4 at concrete records: the erred docling input is
discarded and the pymupdf record is returned verbatim with the
pymupdf_only tag. -/
theorem c4_witness :
    Hybrid.merge_extraction_results
      { error := some "docling failed" }
      { filename := some "p.pdf", identification := some { title := some "T" } }
      "p.pdf"
    = { filename := some "p.pdf", identification := some { title := some "T" },
        extraction_method := some "pymupdf_only" } := by
  have h := (c4_single_error_short_circuit
    { error := some "docling failed" }
    { filename := some "p.pdf", identification := some { title := some "T" } }
    "p.pdf").1 rfl rfl
  exact h

/-- Counterexample for C5: when both inputs err, the both-errors
short-circuit path applies and the merged record nonetheless carries the
synthetic label hybrid, contradicting the clause that hybrid appears only
when neither error short-circuit applied. -/
theorem c5_counterexample :
    errSet (({ error := some "docling broke" } : Hybrid.ExtractedData).error) = true
    ∧ errSet (({ error := some "pymupdf broke" } : Hybrid.ExtractedData).error) = true
    ∧ (Hybrid.merge_extraction_results
        { error := some "docling broke" } { error := some "pymupdf broke" }
        "p.pdf").error
      = some "Both methods failed: Docling: docling broke, PyMuPDF: pymupdf broke"
    ∧ (Hybrid.merge_extraction_results
        { error := some "docling broke" } { error := some "pymupdf broke" }
        "p.pdf").extraction_method = some "hybrid" := by
  refine ⟨rfl, rfl, ?_, ?_⟩ <;> decide

/-- C5 as amended: when both inputs err, the merged record carries an
error naming both underlying messages with source attribution, all section
sub-records are absent, and the record keeps the synthetic hybrid label;
only the single-error short-circuit paths use a different label. -/
theorem c5_both_errors_amended (dr pr : Hybrid.ExtractedData) (fn : String)
    (hd : errSet dr.error = true) (hp : errSet pr.error = true) :
    Hybrid.merge_extraction_results dr pr fn =
      { filename := some fn
        extraction_method := some "hybrid"
        error := some ("Both methods failed: Docling: " ++ pyStr dr.error
          ++ ", PyMuPDF: " ++ pyStr pr.error) } := by
  unfold Hybrid.merge_extraction_results
  rw [hd, hp]
  simp

/-- Witness for C5 as amended, at concrete error records. -/
theorem c5_witness :
    Hybrid.merge_extraction_results
      { error := some "e1" } { error := some "e2" } "w.pdf"
    = { filename := some "w.pdf", extraction_method := some "hybrid",
        error := some "Both methods failed: Docling: e1, PyMuPDF: e2" } := by
  have h := c5_both_errors_amended { error := some "e1" } { error := some "e2" }
    "w.pdf" rfl rfl
  rw [h]
  decide

/-- Counterexample for C6: both inputs error-free, the docling record has
no characteristics sub-record, the pymupdf record carries a meaningful
study aim X; the merged characteristics sub-record is the empty instance,
so study_aim is unset although the prefer-non-empty policy applied to the
two values (absent docling, meaningful pymupdf X) keeps X. The meaningful
pymupdf value is silently dropped. -/
theorem c6_counterexample :
    (Hybrid.merge_extraction_results ({} : Hybrid.ExtractedData)
        ({ characteristics := some { study_aim := some "X" } } : Hybrid.ExtractedData)
        "f.pdf").characteristics = some ({} : Hybrid.StudyCharacteristics)
    ∧ preferNonEmptySpec none (some "X") = some "X"
    ∧ ({} : Hybrid.StudyCharacteristics).study_aim ≠ some "X" := by
  refine ⟨by decide, by decide, by decide⟩

/-- C6 as amended: for error-free inputs the merged value of every field
equals its priority policy applied to the two inputs, but only in sections
whose docling sub-record is present; when the docling sub-record of a
section is absent, the merged sub-record is the empty instance if the
pymupdf sub-record is present (dropping its values) and absent if both are
absent. -/
theorem c6_policy_only_when_docling_present (dr pr : Hybrid.ExtractedData)
    (fn : String) (hd : errSet dr.error = false) (hp : errSet pr.error = false) :
    ((∀ s, dr.identification = some s →
        (Hybrid.merge_extraction_results dr pr fn).identification
          = some (specMergeIdentification s pr.identification))
      ∧ (dr.identification = none →
        (Hybrid.merge_extraction_results dr pr fn).identification
          = pr.identification.map (fun _ => {})))
    ∧ ((∀ s, dr.characteristics = some s →
        (Hybrid.merge_extraction_results dr pr fn).characteristics
          = some (specMergeCharacteristics s pr.characteristics))
      ∧ (dr.characteristics = none →
        (Hybrid.merge_extraction_results dr pr fn).characteristics
          = pr.characteristics.map (fun _ => {})))
    ∧ ((∀ s, dr.participants = some s →
        (Hybrid.merge_extraction_results dr pr fn).participants
          = some (specMergeParticipants s pr.participants))
      ∧ (dr.participants = none →
        (Hybrid.merge_extraction_results dr pr fn).participants
          = pr.participants.map (fun _ => {})))
    ∧ ((∀ s, dr.mri_acquisition = some s →
        (Hybrid.merge_extraction_results dr pr fn).mri_acquisition
          = some (specMergeMRIAcquisition s pr.mri_acquisition))
      ∧ (dr.mri_acquisition = none →
        (Hybrid.merge_extraction_results dr pr fn).mri_acquisition
          = pr.mri_acquisition.map (fun _ => {})))
    ∧ ((∀ s, dr.analysis_methods = some s →
        (Hybrid.merge_extraction_results dr pr fn).analysis_methods
          = some (specMergeAnalysisMethods s pr.analysis_methods))
      ∧ (dr.analysis_methods = none →
        (Hybrid.merge_extraction_results dr pr fn).analysis_methods
          = pr.analysis_methods.map (fun _ => {})))
    ∧ ((∀ s, dr.free_water_results = some s →
        (Hybrid.merge_extraction_results dr pr fn).free_water_results
          = some (specMergeFreeWaterResults s pr.free_water_results))
      ∧ (dr.free_water_results = none →
        (Hybrid.merge_extraction_results dr pr fn).free_water_results
          = pr.free_water_results.map (fun _ => {})))
    ∧ ((∀ s, dr.correlations = some s →
        (Hybrid.merge_extraction_results dr pr fn).correlations
          = some (specMergeCorrelations s pr.correlations))
      ∧ (dr.correlations = none →
        (Hybrid.merge_extraction_results dr pr fn).correlations
          = pr.correlations.map (fun _ => {})))
    ∧ ((∀ s, dr.key_findings = some s →
        (Hybrid.merge_extraction_results dr pr fn).key_findings
          = some (specMergeKeyFindings s pr.key_findings))
      ∧ (dr.key_findings = none →
        (Hybrid.merge_extraction_results dr pr fn).key_findings
          = pr.key_findings.map (fun _ => {}))) := by
  refine ⟨⟨?_, ?_⟩, ⟨?_, ?_⟩, ⟨?_, ?_⟩, ⟨?_, ?_⟩, ⟨?_, ?_⟩, ⟨?_, ?_⟩, ⟨?_, ?_⟩, ⟨?_, ?_⟩⟩
  all_goals rw [merge_no_error dr pr fn hd hp]
  all_goals dsimp only
  · intro s hs
    rw [hs, mergeIdentification_some]
  · intro hs
    rw [hs, mergeIdentification_none]
  · intro s hs
    rw [hs, mergeCharacteristics_some]
  · intro hs
    rw [hs, mergeCharacteristics_none]
  · intro s hs
    rw [hs, mergeParticipants_some]
  · intro hs
    rw [hs, mergeParticipants_none]
  · intro s hs
    rw [hs, mergeMRIAcquisition_some]
  · intro hs
    rw [hs, mergeMRIAcquisition_none]
  · intro s hs
    rw [hs, mergeAnalysisMethods_some]
  · intro hs
    rw [hs, mergeAnalysisMethods_none]
  · intro s hs
    rw [hs, mergeFreeWaterResults_some]
  · intro hs
    rw [hs, mergeFreeWaterResults_none]
  · intro s hs
    rw [hs, mergeCorrelations_some]
  · intro hs
    rw [hs, mergeCorrelations_none]
  · intro s hs
    rw [hs, mergeKeyFindings_some]
  · intro hs
    rw [hs, mergeKeyFindings_none]

/-- Witness for C6 as amended: with the docling characteristics absent and
a meaningful pymupdf study aim, the merged characteristics is the empty
instance. -/
theorem c6_witness :
    (Hybrid.merge_extraction_results ({} : Hybrid.ExtractedData)
      ({ characteristics := some { study_aim := some "Y" } } : Hybrid.ExtractedData)
      "g.pdf").characteristics = some ({} : Hybrid.StudyCharacteristics) := by
  have h := ((c6_policy_only_when_docling_present ({} : Hybrid.ExtractedData)
    { characteristics := some { study_aim := some "Y" } } "g.pdf" rfl rfl).2.1).2 rfl
  rw [h]
  rfl

/-- Counterexample for C7: the hybrid alias table does not know the label
Aim of study, so the line dash Aim of study colon X leaves study_aim unset
there instead of setting it to X; and an untrimmed value is stripped by the
parser, so even in the gemini variant the produced study_aim can differ
from the raw value string. -/
theorem c7_counterexample :
    (Hybrid.parse_structured_response "- Aim of study: X").characteristics
      = some ({} : Hybrid.StudyCharacteristics)
    ∧ (Hybrid.parse_structured_response "- Aim of study: X").characteristics
      ≠ some { study_aim := some "X" }
    ∧ (Gemini.parse_structured_response "- Aim:  x").characteristics
      ≠ some { study_aim := some " x" } := by
  refine ⟨by decide, by decide, by decide⟩

/-- C7 as amended: for every nonempty, already stripped, newline-free value
string v, the gemini fallback parser maps both the label Aim and the label
Aim of study to study_aim, and the hybrid fallback parser maps both Aim and
Study aim to study_aim; the hybrid parser does not recognize Aim of study
and leaves study_aim unset for it. -/
theorem c7_aim_aliases (v : String)
    (hv : pyStrip v = v) (hvne : v ≠ "") (hvnl : '\n' ∉ v.data) :
    (Gemini.parse_structured_response ("- Aim: " ++ v)).characteristics
      = some { study_aim := some v }
    ∧ (Gemini.parse_structured_response ("- Aim of study: " ++ v)).characteristics
      = some { study_aim := some v }
    ∧ (Hybrid.parse_structured_response ("- Aim: " ++ v)).characteristics
      = some { study_aim := some v }
    ∧ (Hybrid.parse_structured_response ("- Study aim: " ++ v)).characteristics
      = some { study_aim := some v }
    ∧ (Hybrid.parse_structured_response ("- Aim of study: " ++ v)).characteristics
      = some ({} : Hybrid.StudyCharacteristics) := by
  refine ⟨?_, ?_, ?_, ?_, ?_⟩
  · unfold Gemini.parse_structured_response
    rw [show ("- Aim: " ++ v)
        = String.mk ('-' :: ' ' :: ("Aim".data ++ ':' :: ' ' :: v.data)) from rfl]
    rw [parseLinesG_label _ _ _ _ (by decide) (by decide) (by decide) hv hvne hvnl]
    rfl
  · unfold Gemini.parse_structured_response
    rw [show ("- Aim of study: " ++ v)
        = String.mk ('-' :: ' ' :: ("Aim of study".data ++ ':' :: ' ' :: v.data)) from rfl]
    rw [parseLinesG_label _ _ _ _ (by decide) (by decide) (by decide) hv hvne hvnl]
    rfl
  · unfold Hybrid.parse_structured_response
    rw [show ("- Aim: " ++ v)
        = String.mk ('-' :: ' ' :: ("Aim".data ++ ':' :: ' ' :: v.data)) from rfl]
    rw [parseLinesG_label _ _ _ _ (by decide) (by decide) (by decide) hv hvne hvnl]
    rfl
  · unfold Hybrid.parse_structured_response
    rw [show ("- Study aim: " ++ v)
        = String.mk ('-' :: ' ' :: ("Study aim".data ++ ':' :: ' ' :: v.data)) from rfl]
    rw [parseLinesG_label _ _ _ _ (by decide) (by decide) (by decide) hv hvne hvnl]
    rfl
  · unfold Hybrid.parse_structured_response
    rw [show ("- Aim of study: " ++ v)
        = String.mk ('-' :: ' ' :: ("Aim of study".data ++ ':' :: ' ' :: v.data)) from rfl]
    rw [parseLinesG_label _ _ _ _ (by decide) (by decide) (by decide) hv hvne hvnl]
    rfl

/-- Witness for C7 as amended at the concrete value X. -/
theorem c7_witness :
    (Gemini.parse_structured_response ("- Aim: " ++ "X")).characteristics
      = some { study_aim := some "X" }
    ∧ (Gemini.parse_structured_response ("- Aim of study: " ++ "X")).characteristics
      = some { study_aim := some "X" }
    ∧ (Hybrid.parse_structured_response ("- Study aim: " ++ "X")).characteristics
      = some { study_aim := some "X" } := by
  obtain ⟨h1, h2, h3, h4, h5⟩ := c7_aim_aliases "X" (by decide) (by decide) (by decide)
  exact ⟨h1, h2, h4⟩

/-- C8: in both script variants, every line the line-oriented fallback does
not recognize - blank after stripping, a bold section header, a separator,
no leading dash-space, no colon-space, or an unknown label - leaves the
record state unchanged, and consequently the parse of any text equals the
parse of its recognized lines only. -/
theorem c8_unmatched_lines_ignored :
    (∀ (lraw : List Char) (st : Hybrid.Sections),
        lineIgnoredWith Hybrid.fieldTable lraw = true →
        processLineG (applyTable Hybrid.fieldTable) st lraw = st)
    ∧ (∀ (lraw : List Char) (st : Gemini.Sections),
        lineIgnoredWith Gemini.fieldTable lraw = true →
        processLineG (applyTable Gemini.fieldTable) st lraw = st)
    ∧ (∀ text : String,
        Hybrid.parse_structured_response text
          = Hybrid.assemble (((splitOnChar '\n' (pyStripL text.data)).filter
              (fun l => !(lineIgnoredWith Hybrid.fieldTable l))).foldl
              (processLineG (applyTable Hybrid.fieldTable)) {}))
    ∧ (∀ text : String,
        Gemini.parse_structured_response text
          = Gemini.assemble (((splitOnChar '\n' (pyStripL text.data)).filter
              (fun l => !(lineIgnoredWith Gemini.fieldTable l))).foldl
              (processLineG (applyTable Gemini.fieldTable)) {})) := by
  refine ⟨?_, ?_, ?_, ?_⟩
  · intro lraw st h
    exact processLine_ignored _ _ h st
  · intro lraw st h
    exact processLine_ignored _ _ h st
  · intro text
    unfold Hybrid.parse_structured_response parseLinesG
    rw [foldl_filter_id _ (lineIgnoredWith Hybrid.fieldTable)
      (fun st l h => processLine_ignored _ _ h st)]
  · intro text
    unfold Gemini.parse_structured_response parseLinesG
    rw [foldl_filter_id _ (lineIgnoredWith Gemini.fieldTable)
      (fun st l h => processLine_ignored _ _ h st)]

/-- Witness for C8 at concrete unmatched lines: a section header, an
unknown label and a separator all leave the fresh state unchanged. -/
theorem c8_witness :
    processLineG (applyTable Hybrid.fieldTable) ({} : Hybrid.Sections)
      ("** MRI ACQUISITION".data) = {}
    ∧ processLineG (applyTable Hybrid.fieldTable) ({} : Hybrid.Sections)
      ("- Unknown label: value".data) = {}
    ∧ processLineG (applyTable Gemini.fieldTable) ({} : Gemini.Sections)
      ("---".data) = {} := by
  exact ⟨c8_unmatched_lines_ignored.1 _ _ (by decide),
    c8_unmatched_lines_ignored.1 _ _ (by decide),
    c8_unmatched_lines_ignored.2.1 _ _ (by decide)⟩

/-- C9: in both variants, flattening a record whose error field holds a
non-empty string yields exactly the filename and error columns (plus
extraction_method in the hybrid variant), regardless of the section
sub-records, which are therefore never read. -/
theorem c9_error_row_flattening :
    (∀ r : Hybrid.ExtractedData, errSet r.error = true →
      Hybrid.to_dict r
        = [("filename", r.filename), ("extraction_method", r.extraction_method),
           ("error", r.error)])
    ∧ (∀ r : Gemini.ExtractedData, errSet r.error = true →
      Gemini.to_dict r = [("filename", r.filename), ("error", r.error)]) := by
  constructor
  · intro r h
    unfold Hybrid.to_dict
    rw [h]
    rfl
  · intro r h
    unfold Gemini.to_dict
    rw [h]
    rfl

/-- Witness for C9: a record with an error and a populated identification
section still flattens to the error row only. -/
theorem c9_witness :
    Hybrid.to_dict
      { filename := some "bad.pdf", error := some "no text",
        identification := some { title := some "ignored" } }
    = [("filename", some "bad.pdf"), ("extraction_method", none),
       ("error", some "no text")]
    ∧ Gemini.to_dict
      { filename := some "bad.pdf", error := some "no text",
        identification := some { title := some "ignored" } }
    = [("filename", some "bad.pdf"), ("error", some "no text")] :=
  ⟨c9_error_row_flattening.1 _ rfl, c9_error_row_flattening.2 _ rfl⟩

/-- The shared analyzer body satisfies the C10 contract for every model
name. -/
theorem analyzeCore_contract (name : String) :
    Screen.analyzerContract (Screen.analyzeCore name) := by
  intro o
  cases o with
  | apiError msg =>
    refine ⟨rfl, rfl, ?_, ?_⟩
    · intro h
      rcases h with h | h <;> exact absurd h (by simp [Screen.analyzeCore, List.lookup])
    · intro _
      right; right
      simp [Screen.analyzeCore, List.lookup]
  | jsonError msg =>
    refine ⟨rfl, rfl, ?_, ?_⟩
    · intro h
      rcases h with h | h <;> exact absurd h (by simp [Screen.analyzeCore, List.lookup])
    · intro _
      right; left
      simp [Screen.analyzeCore, List.lookup]
  | loaded v =>
    cases v with
    | nonDict hasDec hasJust serr =>
      by_cases hc : (!hasDec || !hasJust) = true
      · refine ⟨?_, ?_, ?_, ?_⟩
        · simp [Screen.analyzeCore, hc, List.lookup]
        · simp [Screen.analyzeCore, hc, List.lookup]
        · intro h
          rcases h with h | h <;>
            simp [Screen.analyzeCore, hc, List.lookup] at h
        · intro _
          left
          simp [Screen.analyzeCore, hc, List.lookup]
      · refine ⟨?_, ?_, ?_, ?_⟩
        · simp [Screen.analyzeCore, hc, List.lookup]
        · simp [Screen.analyzeCore, hc, List.lookup]
        · intro h
          rcases h with h | h <;>
            simp [Screen.analyzeCore, hc, List.lookup] at h
        · intro _
          right; right
          simp [Screen.analyzeCore, hc, List.lookup]
    | dict ps =>
      by_cases h1 : ((ps.lookup "decision").isNone || (ps.lookup "justification").isNone) = true
      · refine ⟨?_, ?_, ?_, ?_⟩
        · simp [Screen.analyzeCore, h1, List.lookup]
        · simp [Screen.analyzeCore, h1, List.lookup]
        · intro h
          rcases h with h | h <;>
            simp [Screen.analyzeCore, h1, List.lookup] at h
        · intro _
          left
          simp [Screen.analyzeCore, h1, List.lookup]
      · have h1' := h1
        rw [Bool.or_eq_true, not_or] at h1'
        obtain ⟨hdn, hjn⟩ := h1'
        have hds : (ps.lookup "decision").isSome = true := by
          rcases hx : ps.lookup "decision" with _ | dv
          · exact absurd (by rw [hx]; rfl) hdn
          · rfl
        have hjs : (ps.lookup "justification").isSome = true := by
          rcases hx : ps.lookup "justification" with _ | jv
          · exact absurd (by rw [hx]; rfl) hjn
          · rfl
        obtain ⟨dv, hdv⟩ := Option.isSome_iff_exists.mp hds
        by_cases h2 : (ps.lookup "decision").getD (.other "") = Screen.PyVal.str "Include"
            ∨ (ps.lookup "decision").getD (.other "") = Screen.PyVal.str "Exclude"
        · have hret : Screen.analyzeCore name (.loaded (.dict ps)) = ps := by
            simp only [Screen.analyzeCore]
            rw [if_neg h1, if_pos h2]
          have hdval : dv = Screen.PyVal.str "Include" ∨ dv = Screen.PyVal.str "Exclude" := by
            rw [hdv] at h2
            exact h2
          refine ⟨?_, ?_, ?_, ?_⟩
          · rw [hret]
            exact hds
          · rw [hret]
            exact hjs
          · intro _
            refine ⟨ps, rfl, ?_, hjs⟩
            rcases hdval with h | h
            · left
              rw [hdv, h]
            · right
              rw [hdv, h]
          · intro hn
            exfalso
            apply hn
            refine ⟨ps, rfl, ?_, hjs⟩
            rcases hdval with h | h
            · left
              rw [hdv, h]
            · right
              rw [hdv, h]
        · have hret : Screen.analyzeCore name (.loaded (.dict ps))
              = [("decision", .str "Parse Error"),
                 ("justification", .str ("Invalid decision value: "
                   ++ Screen.pyValStr ((ps.lookup "decision").getD (.other ""))))] := by
            simp only [Screen.analyzeCore]
            rw [if_neg h1, if_neg h2]
          refine ⟨?_, ?_, ?_, ?_⟩
          · rw [hret]
            rfl
          · rw [hret]
            rfl
          · intro h
            rw [hret] at h
            rcases h with h | h <;> simp [List.lookup] at h
          · intro _
            left
            rw [hret]
            rfl

/-- C10: each screening analyzer always returns a dictionary with both a
decision and a justification key and never raises; the decision is Include
or Exclude only when the reply parsed as a JSON object holding both
required keys with one of those decision values, and every other outcome
yields one of the diagnostic labels Parse Error, JSON Error or API Error. -/
theorem c10_screening_analyzers :
    Screen.analyzerContract Screen.analyze_text_with_claude
    ∧ Screen.analyzerContract Screen.analyze_text_with_openai
    ∧ Screen.analyzerContract Screen.analyze_text_with_gemini :=
  ⟨analyzeCore_contract "Claude", analyzeCore_contract "OpenAI",
   analyzeCore_contract "Gemini"⟩

/-- Witness for C10 at concrete outcomes: a transport failure produces a
diagnostic decision label, and a valid reply keeps both keys. -/
theorem c10_witness :
    ((Screen.analyze_text_with_claude (.apiError "timeout")).lookup "decision"
        = some (.str "Parse Error")
      ∨ (Screen.analyze_text_with_claude (.apiError "timeout")).lookup "decision"
        = some (.str "JSON Error")
      ∨ (Screen.analyze_text_with_claude (.apiError "timeout")).lookup "decision"
        = some (.str "API Error"))
    ∧ ((Screen.analyze_text_with_gemini (.loaded (.dict
        [("decision", .str "Include"), ("justification", .str "meets criteria")]))).lookup
        "decision").isSome = true := by
  refine ⟨?_, ?_⟩
  · exact (c10_screening_analyzers.1 (.apiError "timeout")).2.2.2
      (by rintro ⟨ps, hps, _⟩; exact Screen.AnalyzeOutcome.noConfusion hps)
  · exact (c10_screening_analyzers.2.2 _).1
